import Mathlib

/-!
Verification of the motion-dino gesture-classification core.

The definitions below are a shallow embedding of the TypeScript source:
* `computeTierSignal`, `estimateGesture` (`estimateGestureCore`), and the
  per-frame loop body `processFrame` come from `src/lib/confetti.ts`
  (the `usePoseGesture` hook and its helpers);
* `checkPoseMatch` and the challenge data come from `src/unnamed/part_001`.

JavaScript numbers are modelled as rationals (ℚ), `number | null` as
`Option ℚ`, and the mutable runtime record as an explicit state value
threaded through each step.
-/

set_option maxRecDepth 8000
set_option maxHeartbeats 1000000

namespace MotionDino

/-- `PoseGesture` from `confetti.ts`. -/
inductive PoseGesture
  | IDLE
  | JUMP
  | DUCK
deriving DecidableEq, Repr

/-- `PoseTrackingStatus` from `confetti.ts` (`noPerson` models `"no-person"`). -/
inductive PoseTrackingStatus
  | idle
  | loading
  | calibrating
  | tracking
  | noPerson
  | error
deriving DecidableEq, Repr

/-- One normalized landmark: position plus visibility confidence. -/
structure LandmarkPoint where
  x : ℚ
  y : ℚ
  visibility : ℚ
deriving DecidableEq, Repr

/-! Tunable constants from `confetti.ts`. -/

@[simp] def DETECTION_INTERVAL_MS : ℚ := 34
@[simp] def BASELINE_SMOOTHING : ℚ := 0.85
@[simp] def JUMP_THRESHOLD : ℚ := 0.10
@[simp] def QUICK_JUMP_THRESHOLD : ℚ := 0.065
@[simp] def QUICK_JUMP_VELOCITY : ℚ := 0.010
@[simp] def DUCK_THRESHOLD : ℚ := 0.09
@[simp] def CALIBRATION_FRAMES : ℕ := 15
@[simp] def DEBOUNCE_MS : ℚ := 90
@[simp] def MIN_VISIBILITY : ℚ := 0.18
@[simp] def MAX_MISSING_FRAMES : ℕ := 20
@[simp] def RECALIBRATION_DRIFT_THRESHOLD : ℚ := 0.35
@[simp] def RECALIBRATION_FRAMES : ℕ := 10
@[simp] def IDLE_ACCELERATION_FRAMES : ℕ := 60
@[simp] def IDLE_SMOOTHING : ℚ := 0.75

/-- The mutable `GestureRuntime` record from `confetti.ts`. -/
structure GestureRuntime where
  baseline : Option ℚ
  calibrationBuffer : List ℚ
  stableGesture : PoseGesture
  pendingGesture : Option PoseGesture
  pendingSince : ℚ
  missingFrames : ℕ
  lastDetectAt : ℚ
  lastSignal : Option ℚ
  driftFrames : ℕ
  idleFrames : ℕ
  recalibrating : Bool
  trackingTier : ℕ
deriving DecidableEq, Repr

/-- `createRuntime` from `confetti.ts`. -/
def createRuntime : GestureRuntime :=
  { baseline := none
    calibrationBuffer := []
    stableGesture := PoseGesture.IDLE
    pendingGesture := none
    pendingSince := 0
    missingFrames := 0
    lastDetectAt := 0
    lastSignal := none
    driftFrames := 0
    idleFrames := 0
    recalibrating := false
    trackingTier := 1 }

/-- `TierResult` from `confetti.ts`. -/
structure TierResult where
  tier : ℕ
  signal : ℚ
  thresholdMultiplier : ℚ
deriving DecidableEq, Repr

/-- Maximum of a list of rationals, as `Math.max` over a nonempty spread
(the `0` default is never used at call sites, which guard for nonemptiness). -/
def listMax : List ℚ → ℚ
  | [] => 0
  | x :: xs => xs.foldl max x

/-- Minimum of a list of rationals, as `Math.min` over a nonempty spread. -/
def listMin : List ℚ → ℚ
  | [] => 0
  | x :: xs => xs.foldl min x

/-- `computeTierSignal` from `confetti.ts`: reduce one landmark set to a
scale-normalized scalar signal, choosing the best available tier. -/
def computeTierSignal (landmarks : List LandmarkPoint) : Option TierResult :=
  let nose := landmarks.get? 0
  let leftEar := landmarks.get? 7
  let rightEar := landmarks.get? 8
  let leftShoulder := landmarks.get? 11
  let rightShoulder := landmarks.get? 12
  let headCandidates :=
    ([nose, leftEar, rightEar].filterMap id).filter fun p =>
      decide (MIN_VISIBILITY ≤ p.visibility)
  let shoulderPair : Option (LandmarkPoint × LandmarkPoint) :=
    match leftShoulder, rightShoulder with
    | some ls, some rs =>
        if MIN_VISIBILITY ≤ ls.visibility ∧ MIN_VISIBILITY ≤ rs.visibility then
          some (ls, rs)
        else none
    | _, _ => none
  let shoulderMidY : ℚ :=
    match shoulderPair with
    | some (ls, rs) => (ls.y + rs.y) / 2
    | none => 0
  let shoulderSpan : ℚ :=
    match shoulderPair with
    | some (ls, rs) => max 0.09 |rs.x - ls.x|
    | none => 0
  -- Tier 1: Full — both shoulders + head
  if shoulderPair.isSome ∧ 0 < headCandidates.length then
    let headY := (headCandidates.foldl (fun sum p => sum + p.y) 0) / (headCandidates.length : ℚ)
    some { tier := 1
           signal := (headY * 0.52 + shoulderMidY * 0.48) / shoulderSpan
           thresholdMultiplier := 1.0 }
  -- Tier 2: Head-only — at least two head landmarks, no shoulders
  else if 2 ≤ headCandidates.length then
    let headY := (headCandidates.foldl (fun sum p => sum + p.y) 0) / (headCandidates.length : ℚ)
    let headXs := headCandidates.map fun p => p.x
    let headSpan := max 0.06 (listMax headXs - listMin headXs)
    some { tier := 2, signal := headY / headSpan, thresholdMultiplier := 1.2 }
  -- Tier 3: Shoulder-only — both shoulders, no head
  else if shoulderPair.isSome then
    some { tier := 3, signal := shoulderMidY / shoulderSpan, thresholdMultiplier := 0.85 }
  else
    none

/-- The one-step backward difference used as "rise velocity" in
`estimateGesture` (`runtime.lastSignal === null ? 0 : runtime.lastSignal - signal`). -/
def riseVelocityOf (lastSignal : Option ℚ) (signal : ℚ) : ℚ :=
  match lastSignal with
  | none => 0
  | some prev => prev - signal

/-- Idle-time exponential baseline adaptation from `estimateGesture`
(`baseline * smoothing + signal * (1 - smoothing)`, smoothing tightened
after `IDLE_ACCELERATION_FRAMES` consecutive idle frames). -/
def adaptBaseline (baseline signal : ℚ) (idleFrames : ℕ) : ℚ :=
  let smoothing := if IDLE_ACCELERATION_FRAMES < idleFrames then IDLE_SMOOTHING else BASELINE_SMOOTHING
  baseline * smoothing + signal * (1 - smoothing)

/-- The raw per-frame gesture candidate computed by `estimateGesture`
after calibration and drift handling (threshold-plus-velocity classifier). -/
def rawCandidate (baseline signal riseVelocity thresholdMultiplier : ℚ) : PoseGesture :=
  let jumpThreshold := JUMP_THRESHOLD * thresholdMultiplier
  let quickJumpThreshold := QUICK_JUMP_THRESHOLD * thresholdMultiplier
  let quickJumpVelocity := QUICK_JUMP_VELOCITY * thresholdMultiplier
  let duckThreshold := DUCK_THRESHOLD * thresholdMultiplier
  let jumpDelta := baseline - signal
  let duckDelta := signal - baseline
  if jumpThreshold < jumpDelta ∨ (quickJumpThreshold < jumpDelta ∧ quickJumpVelocity < riseVelocity) then
    PoseGesture.JUMP
  else if duckThreshold < duckDelta then
    PoseGesture.DUCK
  else
    PoseGesture.IDLE

/-- The debouncing tail of `estimateGesture` (`confetti.ts` lines 1427-1443):
filter the raw candidate into the stable gesture. -/
def debounceStep (candidate : PoseGesture) (rt : GestureRuntime) (now : ℚ) :
    PoseGesture × GestureRuntime :=
  if candidate = rt.stableGesture then
    (rt.stableGesture, { rt with pendingGesture := none })
  else if rt.pendingGesture ≠ some candidate then
    (rt.stableGesture, { rt with pendingGesture := some candidate, pendingSince := now })
  else if DEBOUNCE_MS ≤ now - rt.pendingSince then
    (candidate, { rt with stableGesture := candidate, pendingGesture := none })
  else
    (rt.stableGesture, rt)

/-- Body of `estimateGesture` after the `computeTierSignal` call, taking the
tier-extraction result as input.  Returns the published gesture together
with the updated runtime (the TypeScript mutates `runtime` in place). -/
def estimateGestureCore (tierResult : Option TierResult) (rt : GestureRuntime) (now : ℚ) :
    PoseGesture × GestureRuntime :=
  match tierResult with
  | none =>
      (PoseGesture.IDLE, { rt with missingFrames := rt.missingFrames + 1, lastSignal := none })
  | some tr =>
      let signal := tr.signal
      let rt1 : GestureRuntime :=
        { rt with missingFrames := 0, trackingTier := tr.tier }
      let riseVelocity := riseVelocityOf rt1.lastSignal signal
      let rt2 : GestureRuntime := { rt1 with lastSignal := some signal }
      -- Calibration phase (initial or recalibration)
      if rt2.baseline.isNone || rt2.recalibrating then
        let buffer := rt2.calibrationBuffer ++ [signal]
        let needed := if rt2.recalibrating then RECALIBRATION_FRAMES else CALIBRATION_FRAMES
        if needed ≤ buffer.length then
          (PoseGesture.IDLE,
            { rt2 with
                baseline := some ((buffer.foldl (fun acc v => acc + v) 0) / (buffer.length : ℚ))
                calibrationBuffer := []
                recalibrating := false
                driftFrames := 0
                idleFrames := 0 })
        else
          (PoseGesture.IDLE, { rt2 with calibrationBuffer := buffer })
      else
        let b0 := rt2.baseline.getD 0
        -- Baseline adaptation
        let idleFrames := if rt2.stableGesture = PoseGesture.IDLE then rt2.idleFrames + 1 else 0
        let baseline :=
          if rt2.stableGesture = PoseGesture.IDLE then adaptBaseline b0 signal idleFrames else b0
        let rt3 : GestureRuntime := { rt2 with idleFrames := idleFrames, baseline := some baseline }
        -- Auto-recalibration: detect drift while IDLE
        let drift := |signal - baseline|
        let driftFrames :=
          if rt3.stableGesture = PoseGesture.IDLE ∧ RECALIBRATION_DRIFT_THRESHOLD < drift then
            rt3.driftFrames + 1
          else 0
        let rt4 : GestureRuntime := { rt3 with driftFrames := driftFrames }
        if rt4.stableGesture = PoseGesture.IDLE ∧ RECALIBRATION_DRIFT_THRESHOLD < drift ∧
            CALIBRATION_FRAMES ≤ driftFrames then
          (PoseGesture.IDLE,
            { rt4 with recalibrating := true, calibrationBuffer := [signal], driftFrames := 0 })
        else
          debounceStep (rawCandidate baseline signal riseVelocity tr.thresholdMultiplier) rt4 now

/-- `estimateGesture` from `confetti.ts`. -/
def estimateGesture (landmarks : List LandmarkPoint) (rt : GestureRuntime) (now : ℚ) :
    PoseGesture × GestureRuntime :=
  estimateGestureCore (computeTierSignal landmarks) rt now

/-- The raw candidate the debouncer sees on a frame, or `none` for frames
that return before classification (no usable signal, calibration in
progress, or the frame that triggers drift recalibration).  Mirrors the
control flow of `estimateGestureCore` on the incoming runtime. -/
def frameCandidate (tierResult : Option TierResult) (rt : GestureRuntime) : Option PoseGesture :=
  match tierResult with
  | none => none
  | some tr =>
      let signal := tr.signal
      let riseVelocity := riseVelocityOf rt.lastSignal signal
      if rt.baseline.isNone || rt.recalibrating then none
      else
        let b0 := rt.baseline.getD 0
        let idleFrames := if rt.stableGesture = PoseGesture.IDLE then rt.idleFrames + 1 else 0
        let baseline :=
          if rt.stableGesture = PoseGesture.IDLE then adaptBaseline b0 signal idleFrames else b0
        let drift := |signal - baseline|
        let driftFrames :=
          if rt.stableGesture = PoseGesture.IDLE ∧ RECALIBRATION_DRIFT_THRESHOLD < drift then
            rt.driftFrames + 1
          else 0
        if rt.stableGesture = PoseGesture.IDLE ∧ RECALIBRATION_DRIFT_THRESHOLD < drift ∧
            CALIBRATION_FRAMES ≤ driftFrames then
          none
        else
          some (rawCandidate baseline signal riseVelocity tr.thresholdMultiplier)

/-- The published record (`UsePoseGestureState`) from `confetti.ts`. -/
structure PublishedState where
  gesture : PoseGesture
  status : PoseTrackingStatus
  calibrationProgress : ℚ
  errorMessage : Option String
  trackingTier : ℕ
deriving DecidableEq, Repr

/-- The `no-person` record published by the detection loop.  JavaScript
truthiness of `runtime.baseline` (both `null` and `0` are falsy) is
modelled by `rt.baseline.getD 0 ≠ 0`. -/
def noPersonPublish (rt : GestureRuntime) : PublishedState :=
  { gesture := PoseGesture.IDLE
    status := PoseTrackingStatus.noPerson
    calibrationProgress :=
      if rt.baseline.getD 0 ≠ 0 then 1
      else (rt.calibrationBuffer.length : ℚ) / (CALIBRATION_FRAMES : ℚ)
    errorMessage := none
    trackingTier := rt.trackingTier }

/-- One pass of the detection-loop body from `usePoseGesture`
(`confetti.ts` lines 1552-1601), after the rate-limit gate: the landmark
input is `none` when the detector returns no result.  Returns the publish
call made on this frame (`none` when the loop returns without publishing)
together with the updated runtime. -/
def processFrame (landmarks : Option (List LandmarkPoint)) (rt : GestureRuntime) (now : ℚ) :
    Option PublishedState × GestureRuntime :=
  let rtd : GestureRuntime := { rt with lastDetectAt := now }
  let onMissing : GestureRuntime → Option PublishedState × GestureRuntime := fun r =>
    let r' : GestureRuntime := { r with missingFrames := r.missingFrames + 1 }
    if MAX_MISSING_FRAMES < r'.missingFrames then (some (noPersonPublish r'), r')
    else (none, r')
  match landmarks with
  | none => onMissing rtd
  | some lms =>
      if lms.length < 13 then onMissing rtd
      else
        let res := estimateGesture lms rtd now
        let gesture := res.1
        let rt' := res.2
        if MAX_MISSING_FRAMES < rt'.missingFrames then
          (some (noPersonPublish rt'), rt')
        else
          let calibrated := rt'.baseline.isSome && !rt'.recalibrating
          let calFrames := if rt'.recalibrating then RECALIBRATION_FRAMES else CALIBRATION_FRAMES
          (some
            { gesture := gesture
              status := if calibrated then PoseTrackingStatus.tracking else PoseTrackingStatus.calibrating
              calibrationProgress :=
                if calibrated then 1 else (rt'.calibrationBuffer.length : ℚ) / (calFrames : ℚ)
              errorMessage := none
              trackingTier := rt'.trackingTier }, rt')

/-- `PoseChallenge` from `src/unnamed/part_001`. -/
structure PoseChallenge where
  id : ℕ
  instruction : String
  emoji : String
  targetGesture : PoseGesture
  holdMs : ℚ
  timeoutMs : ℚ
  successText : String
  timeoutText : String
deriving DecidableEq, Repr

/-- The scripted challenge sequence `CHALLENGES` from `src/unnamed/part_001`
(feedback strings elided to empty strings; the matcher never reads them). -/
def CHALLENGES : List PoseChallenge :=
  [ { id := 1, instruction := "", emoji := "", targetGesture := PoseGesture.IDLE,
      holdMs := 2000, timeoutMs := 6000, successText := "", timeoutText := "" },
    { id := 2, instruction := "", emoji := "", targetGesture := PoseGesture.JUMP,
      holdMs := 0, timeoutMs := 8000, successText := "", timeoutText := "" },
    { id := 3, instruction := "", emoji := "", targetGesture := PoseGesture.DUCK,
      holdMs := 0, timeoutMs := 8000, successText := "", timeoutText := "" } ]

/-- `MatchResult` from `src/unnamed/part_001`. -/
structure MatchResult where
  matched : Bool
  holdProgress : ℚ
deriving DecidableEq, Repr

/-- `checkPoseMatch` from `src/unnamed/part_001`. -/
def checkPoseMatch (challenge : PoseChallenge) (currentGesture : PoseGesture)
    (holdStartTime : Option ℚ) (now : ℚ) : MatchResult :=
  if ¬(currentGesture = challenge.targetGesture) then
    { matched := false, holdProgress := 0 }
  else if challenge.holdMs = 0 then
    { matched := true, holdProgress := 1 }
  else
    match holdStartTime with
    | none => { matched := false, holdProgress := 0 }
    | some hs =>
        let held := now - hs
        let progress := min 1 (held / challenge.holdMs)
        { matched := decide (1 ≤ progress), holdProgress := progress }

/-! ### Spec-side restatement of tier extraction (for the refinement claim C3) -/

/-- A landmark is "usable" when present with visibility at least the
minimum-visibility constant (spec §4.1). -/
def usableLandmark (landmarks : List LandmarkPoint) (i : ℕ) : Option LandmarkPoint :=
  match landmarks.get? i with
  | some p => if MIN_VISIBILITY ≤ p.visibility then some p else none
  | none => none

/-- Tier extraction as worded in §4.1 of the spec: tiers are tried in
priority order (full, head-only, shoulder-only) with the spec's formulas. -/
def tierSignalSpec (landmarks : List LandmarkPoint) : Option TierResult :=
  let heads :=
    [usableLandmark landmarks 0, usableLandmark landmarks 7,
      usableLandmark landmarks 8].filterMap id
  let meanHeadY := (heads.foldl (fun sum p => sum + p.y) 0) / (heads.length : ℚ)
  let bothShoulders :=
    (usableLandmark landmarks 11).isSome ∧ (usableLandmark landmarks 12).isSome
  let shoulderMidY : ℚ :=
    match usableLandmark landmarks 11, usableLandmark landmarks 12 with
    | some ls, some rs => (ls.y + rs.y) / 2
    | _, _ => 0
  let shoulderSpanX : ℚ :=
    match usableLandmark landmarks 11, usableLandmark landmarks 12 with
    | some ls, some rs => |rs.x - ls.x|
    | _, _ => 0
  if bothShoulders ∧ 1 ≤ heads.length then
    some { tier := 1
           signal := (0.52 * meanHeadY + 0.48 * shoulderMidY) / max shoulderSpanX 0.09
           thresholdMultiplier := 1 }
  else if 2 ≤ heads.length then
    let xs := heads.map fun p => p.x
    some { tier := 2
           signal := meanHeadY / max (listMax xs - listMin xs) 0.06
           thresholdMultiplier := 1.2 }
  else if bothShoulders then
    some { tier := 3
           signal := shoulderMidY / max shoulderSpanX 0.09
           thresholdMultiplier := 0.85 }
  else
    none

/-! ### Concrete frame sequences used by the scenario claims -/

/-- A tier-1 extraction result with multiplier 1 and the given signal. -/
def tierConst (s : ℚ) : Option TierResult :=
  some { tier := 1, signal := s, thresholdMultiplier := 1 }

/-- Run `estimateGestureCore` over a schedule of (tier result, timestamp)
frames, starting from a fresh runtime. -/
def runTiers (frames : ℕ → Option TierResult × ℚ) : ℕ → GestureRuntime
  | 0 => createRuntime
  | n + 1 => (estimateGestureCore (frames n).1 (runTiers frames n) (frames n).2).2

/-- The gesture returned on frame `n` of a schedule. -/
def runTiersOut (frames : ℕ → Option TierResult × ℚ) (n : ℕ) : PoseGesture :=
  (estimateGestureCore (frames n).1 (runTiers frames n) (frames n).2).1

/-- A 13-landmark frame whose tier-1 signal is exactly `s`: visible nose and
shoulders at vertical position `s`, shoulder span 1, ears invisible. -/
def calibLandmarks (s : ℚ) : List LandmarkPoint :=
  [ { x := 0.5, y := s, visibility := 1 },
    { x := 0, y := 0, visibility := 0 },
    { x := 0, y := 0, visibility := 0 },
    { x := 0, y := 0, visibility := 0 },
    { x := 0, y := 0, visibility := 0 },
    { x := 0, y := 0, visibility := 0 },
    { x := 0, y := 0, visibility := 0 },
    { x := 0.4, y := 0, visibility := 0 },
    { x := 0.6, y := 0, visibility := 0 },
    { x := 0, y := 0, visibility := 0 },
    { x := 0, y := 0, visibility := 0 },
    { x := 0, y := s, visibility := 1 },
    { x := 1, y := s, visibility := 1 } ]

/-- Runtime state after `n` detection-loop frames that all see
`calibLandmarks s` (timestamps 0). -/
def c4state (s : ℚ) : ℕ → GestureRuntime
  | 0 => createRuntime
  | n + 1 => (processFrame (some (calibLandmarks s)) (c4state s n) 0).2

/-- The publish made on frame `n` of the `c4state` schedule. -/
def c4pub (s : ℚ) (n : ℕ) : Option PublishedState :=
  (processFrame (some (calibLandmarks s)) (c4state s n) 0).1

/-- Drift scenario: 15 calibration frames with signal 0.5, then frames with
signal 10, all at timestamp 0 (so the debouncer never commits). -/
def c5frames (n : ℕ) : Option TierResult × ℚ :=
  if n < 15 then (tierConst 0.5, 0) else (tierConst 10, 0)

/-- Runtime state after `n` frames of the drift scenario. -/
def c5state (n : ℕ) : GestureRuntime :=
  runTiers c5frames n

/-- Scenario of claim C6 as written: 15 calibration frames at signal 0.5,
then frames at signal 0.38 spaced 34 ms apart from timestamp 1000. -/
def c6badFrames (n : ℕ) : Option TierResult × ℚ :=
  if n < 15 then (tierConst 0.5, (34 * n : ℕ))
  else (tierConst 0.38, 1000 + (34 * (n - 15) : ℕ))

/-- Amended C6 scenario: deeper jump displacement (signal 0.30) sustained
across the debounce window, then return to 0.50 sustained across it. -/
def c6frames (n : ℕ) : Option TierResult × ℚ :=
  if n < 15 then (tierConst 0.5, (34 * n : ℕ))
  else if n = 15 then (tierConst 0.30, 1000)
  else if n = 16 then (tierConst 0.30, 1090)
  else if n = 17 then (tierConst 0.5, 1124)
  else (tierConst 0.5, 1214)

/-- Runtime state after `n` frames of the `c6badFrames` schedule. -/
def c6badState (n : ℕ) : GestureRuntime :=
  runTiers c6badFrames n

/-- Runtime state after `n` frames of the `c6frames` schedule. -/
def c6goodState (n : ℕ) : GestureRuntime :=
  runTiers c6frames n

/-- Run the detection-loop body over a schedule of landmark inputs
(timestamps 0), starting from the given runtime. -/
def runProcess (ins : ℕ → Option (List LandmarkPoint)) (rt : GestureRuntime) : ℕ → GestureRuntime
  | 0 => rt
  | n + 1 => (processFrame (ins n) (runProcess ins rt n) 0).2

/-- The publish made on frame `n` of a `runProcess` schedule. -/
def pubProcess (ins : ℕ → Option (List LandmarkPoint)) (rt : GestureRuntime) (n : ℕ) :
    Option PublishedState :=
  (processFrame (ins n) (runProcess ins rt n) 0).1

/-- A frame input on which no usable signal is obtained: the detector
returned nothing, too few landmarks, or tier extraction fails. -/
def failedInput : Option (List LandmarkPoint) → Bool
  | none => true
  | some lms => decide (lms.length < 13) || (computeTierSignal lms).isNone

/-- Example runtime with an initialized baseline (used by witnesses). -/
def rtBaselineOne : GestureRuntime :=
  { createRuntime with baseline := some 1 }

/-- Example calibrated runtime at baseline 0.5 (used by witnesses). -/
def rtCalibrated : GestureRuntime :=
  { createRuntime with baseline := some (1/2), lastSignal := some (1/2) }

/-- Example calibrated runtime with a pending JUMP recorded at time 0
(used by witnesses). -/
def rtPendingJump : GestureRuntime :=
  { createRuntime with
      baseline := some (1/2)
      lastSignal := some (1/2)
      pendingGesture := some PoseGesture.JUMP }

/-- Example tier result with signal 0.5 (used by witnesses). -/
def trHalf : TierResult :=
  { tier := 1, signal := 1/2, thresholdMultiplier := 1 }

/-- Example tier result with signal 10 (used by witnesses). -/
def trTen : TierResult :=
  { tier := 1, signal := 10, thresholdMultiplier := 1 }

/-- Example calibrated runtime one drift frame away from recalibration
(used by witnesses). -/
def rtDrift : GestureRuntime :=
  { createRuntime with
      baseline := some (1/2)
      lastSignal := some (1/2)
      driftFrames := 14 }

/-- Example runtime mid-recalibration (used by witnesses). -/
def rtRecalOne : GestureRuntime :=
  { createRuntime with baseline := some 1, recalibrating := true, calibrationBuffer := [2] }


/-! ### Helper lemmas about the debouncer -/

@[simp] theorem debounceStep_baseline (c : PoseGesture) (rt : GestureRuntime) (now : ℚ) :
    (debounceStep c rt now).2.baseline = rt.baseline := by
  unfold debounceStep; split_ifs <;> rfl

@[simp] theorem debounceStep_buffer (c : PoseGesture) (rt : GestureRuntime) (now : ℚ) :
    (debounceStep c rt now).2.calibrationBuffer = rt.calibrationBuffer := by
  unfold debounceStep; split_ifs <;> rfl

@[simp] theorem debounceStep_recal (c : PoseGesture) (rt : GestureRuntime) (now : ℚ) :
    (debounceStep c rt now).2.recalibrating = rt.recalibrating := by
  unfold debounceStep; split_ifs <;> rfl

@[simp] theorem debounceStep_missing (c : PoseGesture) (rt : GestureRuntime) (now : ℚ) :
    (debounceStep c rt now).2.missingFrames = rt.missingFrames := by
  unfold debounceStep; split_ifs <;> rfl

/-- The stable gesture changes across `debounceStep` only via the commit
case: the candidate was already pending and the debounce window elapsed. -/
theorem debounceStep_stable_change (c : PoseGesture) (rt : GestureRuntime) (now : ℚ)
    (h : (debounceStep c rt now).2.stableGesture ≠ rt.stableGesture) :
    rt.pendingGesture = some c ∧ DEBOUNCE_MS ≤ now - rt.pendingSince ∧
      (debounceStep c rt now).2.stableGesture = c ∧ c ≠ rt.stableGesture := by
  unfold debounceStep at h ⊢
  split_ifs at h ⊢ with h1 h2 h3
  · exact absurd rfl h
  · exact absurd rfl h
  · refine ⟨?_, h3, rfl, h1⟩
    by_contra hne
    exact h2 hne
  · exact absurd rfl h

/-- A frame whose candidate is `none` (no signal, calibration, or the
drift-trigger frame) leaves the stable and pending gestures unchanged. -/
theorem frameCandidate_none_step (tierResult : Option TierResult) (rt : GestureRuntime)
    (now : ℚ) (h : frameCandidate tierResult rt = none) :
    (estimateGestureCore tierResult rt now).2.stableGesture = rt.stableGesture ∧
    (estimateGestureCore tierResult rt now).2.pendingGesture = rt.pendingGesture := by
  cases tierResult with
  | none => exact ⟨rfl, rfl⟩
  | some tr =>
      unfold frameCandidate at h
      unfold estimateGestureCore
      dsimp only at h ⊢
      split_ifs at h ⊢ <;> simp_all

/-- A frame whose candidate is `some c` applies the debounce rule to `c`:
the four cases of §4.4, phrased on the incoming runtime. -/
theorem frameCandidate_some_step (tierResult : Option TierResult) (rt : GestureRuntime)
    (now : ℚ) (c : PoseGesture) (h : frameCandidate tierResult rt = some c) :
    (c = rt.stableGesture →
      (estimateGestureCore tierResult rt now).2.stableGesture = rt.stableGesture ∧
      (estimateGestureCore tierResult rt now).2.pendingGesture = none) ∧
    (c ≠ rt.stableGesture → rt.pendingGesture ≠ some c →
      (estimateGestureCore tierResult rt now).2.stableGesture = rt.stableGesture ∧
      (estimateGestureCore tierResult rt now).2.pendingGesture = some c ∧
      (estimateGestureCore tierResult rt now).2.pendingSince = now) ∧
    (c ≠ rt.stableGesture → rt.pendingGesture = some c → DEBOUNCE_MS ≤ now - rt.pendingSince →
      (estimateGestureCore tierResult rt now).2.stableGesture = c ∧
      (estimateGestureCore tierResult rt now).2.pendingGesture = none) ∧
    (c ≠ rt.stableGesture → rt.pendingGesture = some c → ¬ DEBOUNCE_MS ≤ now - rt.pendingSince →
      (estimateGestureCore tierResult rt now).2.stableGesture = rt.stableGesture ∧
      (estimateGestureCore tierResult rt now).2.pendingGesture = some c) := by
  cases tierResult with
  | none => simp [frameCandidate] at h
  | some tr =>
      unfold frameCandidate at h
      unfold estimateGestureCore
      dsimp only at h ⊢
      split_ifs at h ⊢
      all_goals
        injection h with h
        rw [← h]
        unfold debounceStep
        dsimp only
        split_ifs <;> simp_all

/-! ### Claim theorems -/

/-- Claim C1: the stable (published) gesture changes only via the debounce
commit rule — on a frame whose raw candidate `g` was already pending for at
least the debounce window — and a single-frame candidate excursion followed
by reversion never changes it. -/
theorem c1_stable_changes_only_by_commit :
    (∀ tierResult (rt : GestureRuntime) (now : ℚ),
      (estimateGestureCore tierResult rt now).2.stableGesture ≠ rt.stableGesture →
      ∃ g, frameCandidate tierResult rt = some g ∧ rt.pendingGesture = some g ∧
        DEBOUNCE_MS ≤ now - rt.pendingSince ∧ g ≠ rt.stableGesture ∧
        (estimateGestureCore tierResult rt now).2.stableGesture = g) ∧
    (∀ tierResult1 tierResult2 (rt : GestureRuntime) (now1 now2 : ℚ) (g : PoseGesture),
      rt.pendingGesture = none →
      frameCandidate tierResult1 rt = some g → g ≠ rt.stableGesture →
      frameCandidate tierResult2 (estimateGestureCore tierResult1 rt now1).2 =
        some rt.stableGesture →
      (estimateGestureCore tierResult2 (estimateGestureCore tierResult1 rt now1).2
          now2).2.stableGesture = rt.stableGesture) := by
  constructor
  · intro tierResult rt now hch
    cases hfc : frameCandidate tierResult rt with
    | none =>
        exact absurd (frameCandidate_none_step tierResult rt now hfc).1 hch
    | some c =>
        have H := frameCandidate_some_step tierResult rt now c hfc
        by_cases hce : c = rt.stableGesture
        · exact absurd (H.1 hce).1 hch
        · by_cases hpe : rt.pendingGesture = some c
          · by_cases hw : DEBOUNCE_MS ≤ now - rt.pendingSince
            · exact ⟨c, rfl, hpe, hw, hce, (H.2.2.1 hce hpe hw).1⟩
            · exact absurd (H.2.2.2 hce hpe hw).1 hch
          · exact absurd (H.2.1 hce hpe).1 hch
  · intro t1 t2 rt now1 now2 g hpn hfc1 hgne hfc2
    have H1 := frameCandidate_some_step t1 rt now1 g hfc1
    have hpne : rt.pendingGesture ≠ some g := by rw [hpn]; simp
    have hs1 : (estimateGestureCore t1 rt now1).2.stableGesture = rt.stableGesture :=
      (H1.2.1 hgne hpne).1
    have H2 := frameCandidate_some_step t2 (estimateGestureCore t1 rt now1).2 now2
      rt.stableGesture hfc2
    have hs2 := (H2.1 hs1.symm).1
    rw [hs2, hs1]

/-- Claim C2: the raw candidate is `JUMP` exactly under the displacement or
velocity-corroborated jump conditions, else `DUCK` exactly when the duck
threshold is crossed, else `IDLE`; the rise velocity is the backward
difference of the previous signal (0 when absent); and on a calibrated,
non-drift-trigger frame the candidate the debouncer sees is exactly
`rawCandidate` of the (possibly idle-adapted) baseline, signal, rise
velocity and the tier multiplier. -/
theorem c2_classifier :
    (∀ b s v m : ℚ,
      (rawCandidate b s v m = PoseGesture.JUMP ↔
        JUMP_THRESHOLD * m < b - s ∨
          (QUICK_JUMP_THRESHOLD * m < b - s ∧ QUICK_JUMP_VELOCITY * m < v)) ∧
      (rawCandidate b s v m = PoseGesture.DUCK ↔
        ¬(JUMP_THRESHOLD * m < b - s ∨
            (QUICK_JUMP_THRESHOLD * m < b - s ∧ QUICK_JUMP_VELOCITY * m < v)) ∧
          DUCK_THRESHOLD * m < s - b) ∧
      (rawCandidate b s v m = PoseGesture.IDLE ↔
        ¬(JUMP_THRESHOLD * m < b - s ∨
            (QUICK_JUMP_THRESHOLD * m < b - s ∧ QUICK_JUMP_VELOCITY * m < v)) ∧
          ¬ DUCK_THRESHOLD * m < s - b)) ∧
    (∀ s : ℚ, riseVelocityOf none s = 0) ∧
    (∀ p s : ℚ, riseVelocityOf (some p) s = p - s) ∧
    (∀ (tr : TierResult) (rt : GestureRuntime),
      rt.baseline.isSome = true → rt.recalibrating = false →
      ¬(rt.stableGesture = PoseGesture.IDLE ∧
          RECALIBRATION_DRIFT_THRESHOLD <
            |tr.signal - (if rt.stableGesture = PoseGesture.IDLE then
                adaptBaseline (rt.baseline.getD 0) tr.signal (rt.idleFrames + 1)
              else rt.baseline.getD 0)| ∧
          CALIBRATION_FRAMES ≤ rt.driftFrames + 1) →
      frameCandidate (some tr) rt =
        some (rawCandidate
          (if rt.stableGesture = PoseGesture.IDLE then
            adaptBaseline (rt.baseline.getD 0) tr.signal (rt.idleFrames + 1)
          else rt.baseline.getD 0)
          tr.signal (riseVelocityOf rt.lastSignal tr.signal) tr.thresholdMultiplier)) := by
  refine ⟨?_, fun s => rfl, fun p s => rfl, ?_⟩
  · intro b s v m
    unfold rawCandidate
    dsimp only
    refine ⟨?_, ?_, ?_⟩ <;> split_ifs with h1 h2 <;> simp_all
  · intro tr rt hb hrecal hnt
    obtain ⟨b0, hb0⟩ := Option.isSome_iff_exists.mp hb
    unfold frameCandidate
    dsimp only
    rw [if_neg (by simp [hb0, hrecal])]
    by_cases hP : rt.stableGesture = PoseGesture.IDLE
    · simp only [hP, eq_self_iff_true, if_true, true_and] at hnt ⊢
      rw [if_neg ?hC]
      case hC =>
        rintro ⟨hdr, hcc⟩
        rw [if_pos hdr] at hcc
        exact hnt ⟨hdr, hcc⟩
    · simp only [hP, if_false, false_and] at hnt ⊢

/-- Claim C9, counterexample: with a hold challenge, matching gesture, a
hold-start timestamp of 100 and `now = 0`, `checkPoseMatch` returns a
negative `holdProgress`, so the claim's "clamped to [0,1]" is false as
stated (the code only clamps from above, `Math.min(1, held / holdMs)`). -/
theorem c9_counterexample :
    (checkPoseMatch
        { id := 1, instruction := "", emoji := "", targetGesture := PoseGesture.IDLE,
          holdMs := 2000, timeoutMs := 6000, successText := "", timeoutText := "" }
        PoseGesture.IDLE (some 100) 0).holdProgress < 0 := by
  norm_num [checkPoseMatch, min_def]

/-- Claim C9 (amended): for a hold challenge (`0 < holdMs`), `checkPoseMatch`
returns `matched = false` and `holdProgress = 0` when the gesture differs
from the target or no hold-start is set; otherwise `holdProgress` is
`(now − holdStart)/holdMs` clamped from above at 1 (which coincides with
clamping to `[0,1]` whenever `holdStart ≤ now`), and `matched` holds exactly
when the full duration has elapsed, i.e. exactly when progress reaches 1. -/
theorem c9_amended (challenge : PoseChallenge) (g : PoseGesture) (hs : Option ℚ) (now : ℚ)
    (hpos : 0 < challenge.holdMs) :
    (g ≠ challenge.targetGesture →
      checkPoseMatch challenge g hs now = { matched := false, holdProgress := 0 }) ∧
    (hs = none →
      checkPoseMatch challenge g hs now = { matched := false, holdProgress := 0 }) ∧
    (∀ h0, g = challenge.targetGesture → hs = some h0 →
      (checkPoseMatch challenge g hs now).holdProgress = min 1 ((now - h0) / challenge.holdMs) ∧
      ((checkPoseMatch challenge g hs now).matched = true ↔ challenge.holdMs ≤ now - h0) ∧
      ((checkPoseMatch challenge g hs now).matched = true ↔
        (checkPoseMatch challenge g hs now).holdProgress = 1) ∧
      (h0 ≤ now → 0 ≤ (checkPoseMatch challenge g hs now).holdProgress ∧
        (checkPoseMatch challenge g hs now).holdProgress ≤ 1)) := by
  have hne : challenge.holdMs ≠ 0 := ne_of_gt hpos
  refine ⟨?_, ?_, ?_⟩
  · intro hg
    simp [checkPoseMatch, hg]
  · intro hnone
    subst hnone
    by_cases hg : g = challenge.targetGesture <;> simp [checkPoseMatch, hg, hne]
  · intro h0 hg hsome
    subst hsome
    have key : checkPoseMatch challenge g (some h0) now =
        { matched := decide (1 ≤ min 1 ((now - h0) / challenge.holdMs)),
          holdProgress := min 1 ((now - h0) / challenge.holdMs) } := by
      simp [checkPoseMatch, hg, hne]
    rw [key]
    have hdiv : 1 ≤ (now - h0) / challenge.holdMs ↔ challenge.holdMs ≤ now - h0 := by
      rw [le_div_iff₀ hpos, one_mul]
    refine ⟨rfl, ?_, ?_, ?_⟩
    · simp [min_le_iff, le_min_iff, hdiv]
    · constructor
      · intro hm
        have h1 : 1 ≤ min 1 ((now - h0) / challenge.holdMs) := by simpa using hm
        exact le_antisymm (min_le_left _ _) h1
      · intro hp
        have hp' : min 1 ((now - h0) / challenge.holdMs) = 1 := by simpa using hp
        have hx : (1:ℚ) ≤ (now - h0) / challenge.holdMs := min_eq_left_iff.mp hp'
        simp [le_min_iff, hx]
    · intro hle
      constructor
      · have : (0:ℚ) ≤ (now - h0) / challenge.holdMs :=
          div_nonneg (by linarith) (le_of_lt hpos)
        simp [le_min_iff, this]
      · exact min_le_left _ _

/-- Claim C9 witness: instantiating the amended theorem at the first
scripted hold challenge, a matching gesture held from time 0 to 2000. -/
theorem c9_witness :
    (0:ℚ) <
      ({ id := 1, instruction := "", emoji := "", targetGesture := PoseGesture.IDLE,
         holdMs := 2000, timeoutMs := 6000, successText := "",
         timeoutText := "" } : PoseChallenge).holdMs ∧
    (checkPoseMatch
        { id := 1, instruction := "", emoji := "", targetGesture := PoseGesture.IDLE,
          holdMs := 2000, timeoutMs := 6000, successText := "", timeoutText := "" }
        PoseGesture.IDLE (some 0) 2000).holdProgress = min 1 ((2000 - 0) / 2000) :=
  ⟨by norm_num,
    ((c9_amended
        { id := 1, instruction := "", emoji := "", targetGesture := PoseGesture.IDLE,
          holdMs := 2000, timeoutMs := 6000, successText := "", timeoutText := "" }
        PoseGesture.IDLE (some 0) 2000 (by norm_num)).2.2 0 rfl rfl).1⟩

/-- Claim C8, counterexample: on a detector-missing frame (no landmark set),
the loop body increments the missing counter but does not reset
`lastSignal` to `none` — contradicting the claim's "lastSignal is reset to
none" for that branch (`confetti.ts` lines 1562-1577 never touch it). -/
theorem c8_counterexample :
    (processFrame none { createRuntime with lastSignal := some (1/2 : ℚ) } 0).2.lastSignal =
        some (1/2 : ℚ) ∧
      (processFrame none { createRuntime with lastSignal := some (1/2 : ℚ) } 0).2.missingFrames = 1 := by
  constructor <;> norm_num [processFrame, createRuntime]

/-- Claim C8 (amended): on a frame with no usable signal the missing-frame
counter increments by one and (apart from `lastDetectAt`, stamped with the
frame time) all other runtime fields are unchanged, except that
`lastSignal` is reset to `none` only in the tier-extraction-failure branch;
when the detector returns no or too-few landmarks, `lastSignal` is left
unchanged. -/
theorem c8_amended (rt : GestureRuntime) (now : ℚ) :
    (processFrame none rt now).2 =
      { rt with lastDetectAt := now, missingFrames := rt.missingFrames + 1 } ∧
    (∀ lms : List LandmarkPoint, lms.length < 13 →
      (processFrame (some lms) rt now).2 =
        { rt with lastDetectAt := now, missingFrames := rt.missingFrames + 1 }) ∧
    (∀ lms : List LandmarkPoint, ¬ lms.length < 13 → computeTierSignal lms = none →
      (processFrame (some lms) rt now).2 =
        { rt with lastDetectAt := now, missingFrames := rt.missingFrames + 1,
                  lastSignal := none }) := by
  refine ⟨?_, ?_, ?_⟩
  · unfold processFrame
    dsimp only
    split <;> rfl
  · intro lms hlen
    unfold processFrame
    dsimp only
    rw [if_pos hlen]
    split <;> rfl
  · intro lms hlen htier
    unfold processFrame estimateGesture
    dsimp only
    rw [if_neg hlen, htier]
    unfold estimateGestureCore
    dsimp only
    split <;> rfl

/-- Claim C8 witness: the amended theorem applied at a fresh runtime, for
each of the three no-signal branches (no detector result, a twelve-landmark
result, and thirteen invisible landmarks on which tier extraction fails). -/
theorem c8_witness :
    (processFrame none createRuntime 5).2 =
      { createRuntime with lastDetectAt := 5, missingFrames := 1 } ∧
    (processFrame (some []) createRuntime 5).2 =
      { createRuntime with lastDetectAt := 5, missingFrames := 1 } ∧
    (processFrame (some (List.replicate 13 { x := 0, y := 0, visibility := 0 })) createRuntime 5).2 =
      { createRuntime with lastDetectAt := 5, missingFrames := 1, lastSignal := none } :=
  ⟨(c8_amended createRuntime 5).1,
    (c8_amended createRuntime 5).2.1 [] (by decide),
    (c8_amended createRuntime 5).2.2 (List.replicate 13 { x := 0, y := 0, visibility := 0 })
      (by decide)
      (by norm_num [computeTierSignal, List.replicate, List.filter_cons, List.filterMap_cons,
            decide_eq_true_eq])⟩

/-- Claim C10: once the baseline is set it stays set across every
`estimateGestureCore` step — entering recalibration keeps the previous
baseline value in place until the new mean overwrites it — and only a
rebuilt runtime (`createRuntime`) has an uninitialized baseline. -/
theorem c10_baseline_persistence :
    (∀ tierResult (rt : GestureRuntime) (now : ℚ), rt.baseline.isSome = true →
        ((estimateGestureCore tierResult rt now).2.baseline).isSome = true) ∧
    (∀ tierResult (rt : GestureRuntime) (now : ℚ), rt.recalibrating = true →
        rt.calibrationBuffer.length + 1 < RECALIBRATION_FRAMES →
        (estimateGestureCore tierResult rt now).2.baseline = rt.baseline) ∧
    createRuntime.baseline = none := by
  refine ⟨?_, ?_, rfl⟩
  · rintro (_ | tr) rt now h
    · simpa using h
    · unfold estimateGestureCore
      dsimp only
      repeat' split
      all_goals simp_all
  · rintro (_ | tr) rt now hrecal hlen
    · rfl
    · simp only [RECALIBRATION_FRAMES] at hlen
      unfold estimateGestureCore
      dsimp only
      rw [if_pos (by simp [hrecal])]
      rw [if_neg (by simp [hrecal, List.length_append]; omega)]

/-- Claim C10 witness: baseline persistence at a concrete calibrated
runtime, and during a concrete recalibration step. -/
theorem c10_witness :
    ((estimateGestureCore (tierConst 2) rtBaselineOne 0).2.baseline).isSome = true ∧
    (estimateGestureCore (tierConst 3) rtRecalOne 0).2.baseline = rtRecalOne.baseline :=
  ⟨c10_baseline_persistence.1 (tierConst 2) rtBaselineOne 0 rfl,
    c10_baseline_persistence.2.1 (tierConst 3) rtRecalOne 0 rfl (by decide)⟩

/-- Filtering the landmark candidates by visibility is pointwise usability. -/
theorem filterMap_filter_usable (os : List (Option LandmarkPoint)) :
    ((os.filterMap id).filter fun p => decide (MIN_VISIBILITY ≤ p.visibility)) =
      (os.map fun o =>
        match o with
        | some p => if MIN_VISIBILITY ≤ p.visibility then some p else none
        | none => none).filterMap id := by
  induction os with
  | nil => rfl
  | cons o os ih =>
      cases o with
      | none => simpa using ih
      | some p =>
          by_cases hv : MIN_VISIBILITY ≤ p.visibility <;>
            simp [hv, ih, -MIN_VISIBILITY]

/-- The head-candidate list of `computeTierSignal` equals the spec's list of
usable head landmarks. -/
theorem headCandidates_eq (l : List LandmarkPoint) :
    (([l.get? 0, l.get? 7, l.get? 8].filterMap id).filter fun p =>
        decide (MIN_VISIBILITY ≤ p.visibility)) =
      [usableLandmark l 0, usableLandmark l 7, usableLandmark l 8].filterMap id := by
  have h := filterMap_filter_usable [l.get? 0, l.get? 7, l.get? 8]
  simpa only [List.map_cons, List.map_nil, usableLandmark] using h

/-- The shoulder pair of `computeTierSignal` equals the spec's pair of
usable shoulder landmarks. -/
theorem shoulderPair_eq (l : List LandmarkPoint) :
    (match l.get? 11, l.get? 12 with
      | some ls, some rs =>
          if MIN_VISIBILITY ≤ ls.visibility ∧ MIN_VISIBILITY ≤ rs.visibility then
            some (ls, rs)
          else none
      | _, _ => none) =
      (match usableLandmark l 11, usableLandmark l 12 with
        | some ls, some rs => some (ls, rs)
        | _, _ => none) := by
  unfold usableLandmark
  cases h1 : l.get? 11 with
  | none => cases h2 : l.get? 12 <;> rfl
  | some ls =>
      cases h2 : l.get? 12 with
      | none =>
          by_cases hA : MIN_VISIBILITY ≤ ls.visibility <;>
            simp [hA, -MIN_VISIBILITY]
      | some rs =>
          by_cases hA : MIN_VISIBILITY ≤ ls.visibility <;>
            by_cases hB : MIN_VISIBILITY ≤ rs.visibility <;>
            simp [hA, hB, -MIN_VISIBILITY]

/-- Claim C3: tier extraction as implemented agrees with the spec-worded
tier selection on every landmark set; it is a pure function of the current
landmark list by construction. -/
theorem c3_tier_refinement (l : List LandmarkPoint) :
    computeTierSignal l = tierSignalSpec l := by
  unfold computeTierSignal tierSignalSpec
  dsimp only
  rw [headCandidates_eq l, shoulderPair_eq l]
  generalize [usableLandmark l 0, usableLandmark l 7, usableLandmark l 8].filterMap id = H
  cases h11 : usableLandmark l 11 <;> cases h12 : usableLandmark l 12 <;>
    simp only [h11, h12] <;>
    split_ifs <;>
    first
      | rfl
      | omega
      | (simp_all [TierResult.mk.injEq, max_comm] <;> constructor <;> ring)

/-- Claim C1 witness: a concrete commit (pending JUMP, window elapsed) and
a concrete single-frame excursion followed by reversion. -/
theorem c1_witness :
    (∃ g, frameCandidate (tierConst (3/10)) rtPendingJump = some g ∧
      rtPendingJump.pendingGesture = some g ∧
      DEBOUNCE_MS ≤ (100:ℚ) - rtPendingJump.pendingSince ∧ g ≠ rtPendingJump.stableGesture ∧
      (estimateGestureCore (tierConst (3/10)) rtPendingJump 100).2.stableGesture = g) ∧
    (estimateGestureCore (tierConst (47/100))
        (estimateGestureCore (tierConst (3/10)) rtCalibrated 0).2 50).2.stableGesture =
      rtCalibrated.stableGesture :=
  ⟨c1_stable_changes_only_by_commit.1 (tierConst (3/10)) rtPendingJump 100
      (by norm_num +decide [estimateGestureCore, tierConst, rtPendingJump, createRuntime,
        riseVelocityOf, adaptBaseline, rawCandidate, debounceStep, abs_of_nonneg, abs_of_nonpos,
        max_def, min_def]),
    c1_stable_changes_only_by_commit.2 (tierConst (3/10)) (tierConst (47/100)) rtCalibrated 0 50
      PoseGesture.JUMP rfl
      (by norm_num +decide [frameCandidate, tierConst, rtCalibrated, createRuntime,
        riseVelocityOf, adaptBaseline, rawCandidate, abs_of_nonneg, abs_of_nonpos, max_def,
        min_def])
      (by decide)
      (by norm_num +decide [frameCandidate, estimateGestureCore, tierConst, rtCalibrated,
        createRuntime, riseVelocityOf, adaptBaseline, rawCandidate, debounceStep, abs_of_nonneg,
        abs_of_nonpos, max_def, min_def])⟩

/-- Claim C2 witness: the wiring conjunct instantiated on a concrete
calibrated runtime and tier result. -/
theorem c2_witness :
    frameCandidate (some trHalf) rtCalibrated =
      some (rawCandidate
        (if rtCalibrated.stableGesture = PoseGesture.IDLE then
          adaptBaseline (rtCalibrated.baseline.getD 0) trHalf.signal (rtCalibrated.idleFrames + 1)
        else rtCalibrated.baseline.getD 0)
        trHalf.signal (riseVelocityOf rtCalibrated.lastSignal trHalf.signal)
        trHalf.thresholdMultiplier) :=
  c2_classifier.2.2.2 trHalf rtCalibrated rfl rfl
    (by norm_num +decide [rtCalibrated, createRuntime, trHalf, adaptBaseline, abs_of_nonneg,
      abs_of_nonpos])

/-- `calibLandmarks s` extracts as tier 1 with signal exactly `s`. -/
theorem computeTier_calib (s : ℚ) :
    computeTierSignal (calibLandmarks s) =
      some { tier := 1, signal := s, thresholdMultiplier := 1 } := by
  norm_num [computeTierSignal, calibLandmarks, List.filter_cons, List.filterMap_cons,
    decide_eq_true_eq, max_def, abs_of_nonneg]
  ring

/-- Folding addition over a replicated list. -/
theorem foldl_add_replicate (s : ℚ) : ∀ (k : ℕ) (a : ℚ),
    (List.replicate k s).foldl (fun acc v => acc + v) a = a + k * s := by
  intro k
  induction k with
  | zero => intro a; simp
  | succ k ih =>
      intro a
      rw [List.replicate_succ, List.foldl_cons, ih]
      push_cast
      ring

/-- A non-final initial-calibration step appends the signal to the buffer
and leaves the rest of the runtime unchanged. -/
theorem calib_append_core (tr : TierResult) (rt : GestureRuntime) (now : ℚ)
    (hb : rt.baseline = none) (hr : rt.recalibrating = false)
    (hlen : rt.calibrationBuffer.length + 1 < CALIBRATION_FRAMES) :
    estimateGestureCore (some tr) rt now =
      (PoseGesture.IDLE,
        { rt with missingFrames := 0, trackingTier := tr.tier, lastSignal := some tr.signal,
                  calibrationBuffer := rt.calibrationBuffer ++ [tr.signal] }) := by
  simp only [CALIBRATION_FRAMES] at hlen
  unfold estimateGestureCore
  dsimp only
  rw [if_pos (by simp [hb, hr])]
  rw [if_neg (by simp [hr, CALIBRATION_FRAMES, RECALIBRATION_FRAMES, List.length_append]; omega)]

/-- The initial-calibration step that fills the buffer sets the baseline to
the arithmetic mean of the samples and clears the buffer. -/
theorem calib_complete_core (tr : TierResult) (rt : GestureRuntime) (now : ℚ)
    (hb : rt.baseline = none) (hr : rt.recalibrating = false)
    (hlen : rt.calibrationBuffer.length + 1 = CALIBRATION_FRAMES) :
    estimateGestureCore (some tr) rt now =
      (PoseGesture.IDLE,
        { rt with missingFrames := 0, trackingTier := tr.tier, lastSignal := some tr.signal,
                  baseline := some
                    (((rt.calibrationBuffer ++ [tr.signal]).foldl (fun acc v => acc + v) 0) /
                      ((rt.calibrationBuffer ++ [tr.signal]).length : ℚ)),
                  calibrationBuffer := [], recalibrating := false,
                  driftFrames := 0, idleFrames := 0 }) := by
  simp only [CALIBRATION_FRAMES] at hlen
  unfold estimateGestureCore
  dsimp only
  rw [if_pos (by simp [hb, hr])]
  rw [if_pos (by simp [hr, CALIBRATION_FRAMES, RECALIBRATION_FRAMES, List.length_append]; omega)]

/-- During initial calibration a usable frame appends the signal, publishes
`calibrating` with progress `(len+1)/15`, and forces the IDLE gesture. -/
theorem processFrame_calib_append (s : ℚ) (rt : GestureRuntime) (now : ℚ)
    (hb : rt.baseline = none) (hr : rt.recalibrating = false)
    (hlen : rt.calibrationBuffer.length + 1 < CALIBRATION_FRAMES) :
    processFrame (some (calibLandmarks s)) rt now =
      (some { gesture := PoseGesture.IDLE, status := PoseTrackingStatus.calibrating,
              calibrationProgress :=
                ((rt.calibrationBuffer.length + 1 : ℕ) : ℚ) / (CALIBRATION_FRAMES : ℚ),
              errorMessage := none, trackingTier := 1 },
       { rt with lastDetectAt := now, missingFrames := 0, trackingTier := 1,
                 lastSignal := some s, calibrationBuffer := rt.calibrationBuffer ++ [s] }) := by
  unfold processFrame estimateGesture
  dsimp only
  rw [if_neg (by norm_num [calibLandmarks])]
  rw [computeTier_calib]
  rw [calib_append_core _ { rt with lastDetectAt := now } now hb hr hlen]
  dsimp only
  rw [if_neg (by simp [MAX_MISSING_FRAMES])]
  simp [hb, hr, List.length_append]

/-- The frame on which the buffer reaches 15 samples sets the baseline to
the mean, clears the buffer, and publishes `tracking` with progress 1. -/
theorem processFrame_calib_complete (s : ℚ) (rt : GestureRuntime) (now : ℚ)
    (hb : rt.baseline = none) (hr : rt.recalibrating = false)
    (hlen : rt.calibrationBuffer.length + 1 = CALIBRATION_FRAMES) :
    processFrame (some (calibLandmarks s)) rt now =
      (some { gesture := PoseGesture.IDLE, status := PoseTrackingStatus.tracking,
              calibrationProgress := 1, errorMessage := none, trackingTier := 1 },
       { rt with lastDetectAt := now, missingFrames := 0, trackingTier := 1,
                 lastSignal := some s,
                 baseline := some (((rt.calibrationBuffer ++ [s]).foldl (fun acc v => acc + v) 0) /
                   ((rt.calibrationBuffer ++ [s]).length : ℚ)),
                 calibrationBuffer := [], recalibrating := false,
                 driftFrames := 0, idleFrames := 0 }) := by
  unfold processFrame estimateGesture
  dsimp only
  rw [if_neg (by norm_num [calibLandmarks])]
  rw [computeTier_calib]
  rw [calib_complete_core _ { rt with lastDetectAt := now } now hb hr hlen]
  dsimp only
  rw [if_neg (by simp [MAX_MISSING_FRAMES])]
  simp [hb, hr, List.length_append]

/-- Closed form of the runtime during the constant-signal calibration run. -/
theorem c4state_closed (s : ℚ) : ∀ n : ℕ, n ≤ 14 →
    c4state s n =
      { baseline := none, calibrationBuffer := List.replicate n s,
        stableGesture := PoseGesture.IDLE, pendingGesture := none, pendingSince := 0,
        missingFrames := 0, lastDetectAt := 0,
        lastSignal := if n = 0 then none else some s,
        driftFrames := 0, idleFrames := 0, recalibrating := false, trackingTier := 1 } := by
  intro n
  induction n with
  | zero => intro _; rfl
  | succ n ih =>
      intro h
      have hn : n ≤ 14 := by omega
      have hstep : c4state s (n + 1) =
          (processFrame (some (calibLandmarks s)) (c4state s n) 0).2 := rfl
      rw [hstep, ih hn, processFrame_calib_append s _ 0 rfl rfl
        (by simp [CALIBRATION_FRAMES, List.length_replicate]; omega)]
      rw [← List.replicate_succ']
      simp

/-- Claim C4: during initial calibration every usable frame appends the
signal to the buffer and forces the published gesture IDLE with progress
`len/15`; the 15th sample sets the baseline to the arithmetic mean and the
published status becomes `tracking`; 15 frames of constant signal `s` yield
baseline exactly `s`. -/
theorem c4_initial_calibration (s : ℚ) :
    (∀ (tr : TierResult) (rt : GestureRuntime) (now : ℚ),
      rt.baseline = none → rt.recalibrating = false →
      rt.calibrationBuffer.length + 1 < CALIBRATION_FRAMES →
      estimateGestureCore (some tr) rt now =
        (PoseGesture.IDLE,
          { rt with missingFrames := 0, trackingTier := tr.tier, lastSignal := some tr.signal,
                    calibrationBuffer := rt.calibrationBuffer ++ [tr.signal] })) ∧
    (∀ (tr : TierResult) (rt : GestureRuntime) (now : ℚ),
      rt.baseline = none → rt.recalibrating = false →
      rt.calibrationBuffer.length + 1 = CALIBRATION_FRAMES →
      estimateGestureCore (some tr) rt now =
        (PoseGesture.IDLE,
          { rt with missingFrames := 0, trackingTier := tr.tier, lastSignal := some tr.signal,
                    baseline := some
                      (((rt.calibrationBuffer ++ [tr.signal]).foldl (fun acc v => acc + v) 0) /
                        ((rt.calibrationBuffer ++ [tr.signal]).length : ℚ)),
                    calibrationBuffer := [], recalibrating := false,
                    driftFrames := 0, idleFrames := 0 })) ∧
    (∀ n : ℕ, n + 1 < CALIBRATION_FRAMES →
      c4pub s n = some
        { gesture := PoseGesture.IDLE, status := PoseTrackingStatus.calibrating,
          calibrationProgress := ((n + 1 : ℕ) : ℚ) / (CALIBRATION_FRAMES : ℚ),
          errorMessage := none, trackingTier := 1 }) ∧
    (c4state s CALIBRATION_FRAMES).baseline = some s ∧
    c4pub s (CALIBRATION_FRAMES - 1) = some
      { gesture := PoseGesture.IDLE, status := PoseTrackingStatus.tracking,
        calibrationProgress := 1, errorMessage := none, trackingTier := 1 } := by
  refine ⟨calib_append_core, calib_complete_core, ?_, ?_, ?_⟩
  · intro n hn
    simp only [CALIBRATION_FRAMES] at hn
    have hstep : c4pub s n = (processFrame (some (calibLandmarks s)) (c4state s n) 0).1 := rfl
    rw [hstep, c4state_closed s n (by omega), processFrame_calib_append s _ 0 rfl rfl
      (by simp [CALIBRATION_FRAMES, List.length_replicate]; omega)]
    simp [List.length_replicate]
  · have hstep : c4state s CALIBRATION_FRAMES =
        (processFrame (some (calibLandmarks s)) (c4state s 14) 0).2 := rfl
    rw [hstep, c4state_closed s 14 (by omega), processFrame_calib_complete s _ 0 rfl rfl
      (by simp [CALIBRATION_FRAMES, List.length_replicate])]
    rw [← List.replicate_succ']
    simp [foldl_add_replicate, List.length_replicate]
    ring
  · have hstep : c4pub s (CALIBRATION_FRAMES - 1) =
        (processFrame (some (calibLandmarks s)) (c4state s 14) 0).1 := rfl
    rw [hstep, c4state_closed s 14 (by omega), processFrame_calib_complete s _ 0 rfl rfl
      (by simp [CALIBRATION_FRAMES, List.length_replicate])]

/-- Claim C4 witness: the calibration conjuncts instantiated at a fresh
runtime and at the constant-signal run with s = 1/2. -/
theorem c4_witness :
    estimateGestureCore (some trHalf) createRuntime 0 =
      (PoseGesture.IDLE,
        { createRuntime with missingFrames := 0, trackingTier := trHalf.tier, lastSignal := some trHalf.signal, calibrationBuffer := createRuntime.calibrationBuffer ++ [trHalf.signal] }) ∧
    c4pub (1/2) 3 = some
      { gesture := PoseGesture.IDLE, status := PoseTrackingStatus.calibrating,
        calibrationProgress := ((3 + 1 : ℕ) : ℚ) / (CALIBRATION_FRAMES : ℚ),
        errorMessage := none, trackingTier := 1 } ∧
    (c4state (1/2) CALIBRATION_FRAMES).baseline = some (1/2) :=
  ⟨(c4_initial_calibration (1/2)).1 trHalf createRuntime 0 rfl rfl (by decide),
    (c4_initial_calibration (1/2)).2.2.1 3 (by decide),
    (c4_initial_calibration (1/2)).2.2.2.1⟩

/-- A recalibration step that does not yet fill the buffer appends the
signal and stays in recalibrating mode. -/
theorem recal_push_core (tr : TierResult) (rt : GestureRuntime) (now : ℚ)
    (hr : rt.recalibrating = true)
    (hlen : rt.calibrationBuffer.length + 1 < RECALIBRATION_FRAMES) :
    estimateGestureCore (some tr) rt now =
      (PoseGesture.IDLE,
        { rt with missingFrames := 0, trackingTier := tr.tier, lastSignal := some tr.signal,
                  calibrationBuffer := rt.calibrationBuffer ++ [tr.signal] }) := by
  simp only [RECALIBRATION_FRAMES] at hlen
  unfold estimateGestureCore
  dsimp only
  rw [if_pos (by simp [hr])]
  rw [if_neg (by simp [hr, RECALIBRATION_FRAMES, List.length_append]; omega)]

/-- The recalibration step that fills the buffer recomputes the baseline as
the mean of the collected samples and leaves recalibrating mode. -/
theorem recal_complete_core (tr : TierResult) (rt : GestureRuntime) (now : ℚ)
    (hr : rt.recalibrating = true)
    (hlen : rt.calibrationBuffer.length + 1 = RECALIBRATION_FRAMES) :
    estimateGestureCore (some tr) rt now =
      (PoseGesture.IDLE,
        { rt with missingFrames := 0, trackingTier := tr.tier, lastSignal := some tr.signal,
                  baseline := some
                    (((rt.calibrationBuffer ++ [tr.signal]).foldl (fun acc v => acc + v) 0) /
                      ((rt.calibrationBuffer ++ [tr.signal]).length : ℚ)),
                  calibrationBuffer := [], recalibrating := false,
                  driftFrames := 0, idleFrames := 0 }) := by
  simp only [RECALIBRATION_FRAMES] at hlen
  unfold estimateGestureCore
  dsimp only
  rw [if_pos (by simp [hr])]
  rw [if_pos (by simp [hr, RECALIBRATION_FRAMES, List.length_append]; omega)]

/-- Running recalibration to the end: from a buffer needing `k ≥ 1` more
samples, `k` usable frames finish recalibration with the mean baseline. -/
theorem recal_run : ∀ (k : ℕ) (rt : GestureRuntime) (trs : List TierResult) (now : ℚ),
    rt.recalibrating = true → 1 ≤ k →
    rt.calibrationBuffer.length + k = RECALIBRATION_FRAMES → trs.length = k →
    ((trs.foldl (fun r t => (estimateGestureCore (some t) r now).2) rt).recalibrating = false ∧
      (trs.foldl (fun r t => (estimateGestureCore (some t) r now).2) rt).baseline =
        some (((rt.calibrationBuffer ++ trs.map (fun t => t.signal)).foldl
            (fun acc v => acc + v) 0) / ((RECALIBRATION_FRAMES : ℕ) : ℚ))) := by
  intro k
  induction k with
  | zero => intro rt trs now _ h1 _ _; omega
  | succ k ih =>
      intro rt trs now hr _ hlen htrs
      rcases trs with _ | ⟨t, rest⟩
      · simp at htrs
      · have hrest : rest.length = k := by simpa using htrs
        rcases Nat.eq_zero_or_pos k with hk | hk
        · subst hk
          have hnil : rest = [] := List.length_eq_zero.mp hrest
          subst hnil
          have hbl : rt.calibrationBuffer.length + 1 = RECALIBRATION_FRAMES := by omega
          simp only [List.foldl_cons, List.foldl_nil]
          rw [recal_complete_core t rt now hr hbl]
          refine ⟨rfl, ?_⟩
          simp only [RECALIBRATION_FRAMES] at hbl ⊢
          simp [List.length_append, hbl]
        · have hpl : rt.calibrationBuffer.length + 1 < RECALIBRATION_FRAMES := by omega
          simp only [List.foldl_cons]
          rw [recal_push_core t rt now hr hpl]
          have hlen2 : (rt.calibrationBuffer ++ [t.signal]).length + k = RECALIBRATION_FRAMES := by
            simp only [List.length_append, List.length_cons, List.length_nil]
            omega
          have hstep := ih { rt with missingFrames := 0, trackingTier := t.tier, lastSignal := some t.signal, calibrationBuffer := rt.calibrationBuffer ++ [t.signal] } rest now hr (by omega) hlen2 hrest
          refine ⟨hstep.1, ?_⟩
          rw [hstep.2]
          simp [List.append_assoc]

/-- The drift counter and recalibration entry on an idle frame whose signal
deviates from the (adapted) baseline by more than the drift threshold. -/
theorem drift_step_core (tr : TierResult) (rt : GestureRuntime) (now : ℚ) (b : ℚ)
    (hb : rt.baseline = some b) (hr : rt.recalibrating = false)
    (hstable : rt.stableGesture = PoseGesture.IDLE)
    (hdrift : RECALIBRATION_DRIFT_THRESHOLD <
      |tr.signal - adaptBaseline b tr.signal (rt.idleFrames + 1)|) :
    (CALIBRATION_FRAMES ≤ rt.driftFrames + 1 →
      estimateGestureCore (some tr) rt now =
        (PoseGesture.IDLE,
          { rt with missingFrames := 0, trackingTier := tr.tier, lastSignal := some tr.signal,
                    idleFrames := rt.idleFrames + 1,
                    baseline := some (adaptBaseline b tr.signal (rt.idleFrames + 1)),
                    recalibrating := true, calibrationBuffer := [tr.signal],
                    driftFrames := 0 })) ∧
    (rt.driftFrames + 1 < CALIBRATION_FRAMES →
      (estimateGestureCore (some tr) rt now).2.driftFrames = rt.driftFrames + 1 ∧
      (estimateGestureCore (some tr) rt now).2.recalibrating = false) := by
  unfold estimateGestureCore
  dsimp only
  rw [if_neg (by simp [hb, hr])]
  simp only [hstable, hb, Option.getD_some, eq_self_iff_true, if_true, true_and, if_pos hdrift]
  constructor
  · intro h15
    rw [if_pos ⟨hdrift, h15⟩]
  · intro hlt
    rw [if_neg (by rintro ⟨-, hcc⟩; omega)]
    constructor
    · unfold debounceStep
      dsimp only
      split_ifs <;> rfl
    · simp [hr]

/-- Claim C5 (amended): a drifting idle frame increments the drift counter,
and the 15th consecutive one enters recalibration with the buffer reseeded
to the triggering sample; recalibration then completes after 9 further
samples (the reseeded sample plus 9 new ones = 10 total), at which point
the baseline becomes the mean of those 10 samples and recalibrating mode
ends. -/
theorem c5_drift_recalibration :
    (∀ (tr : TierResult) (rt : GestureRuntime) (now : ℚ) (b : ℚ),
      rt.baseline = some b → rt.recalibrating = false →
      rt.stableGesture = PoseGesture.IDLE →
      RECALIBRATION_DRIFT_THRESHOLD <
        |tr.signal - adaptBaseline b tr.signal (rt.idleFrames + 1)| →
      (CALIBRATION_FRAMES ≤ rt.driftFrames + 1 →
        (estimateGestureCore (some tr) rt now).2.recalibrating = true ∧
        (estimateGestureCore (some tr) rt now).2.calibrationBuffer = [tr.signal] ∧
        (estimateGestureCore (some tr) rt now).1 = PoseGesture.IDLE) ∧
      (rt.driftFrames + 1 < CALIBRATION_FRAMES →
        (estimateGestureCore (some tr) rt now).2.driftFrames = rt.driftFrames + 1 ∧
        (estimateGestureCore (some tr) rt now).2.recalibrating = false)) ∧
    (∀ (rt : GestureRuntime) (s0 : ℚ) (trs : List TierResult) (now : ℚ),
      rt.recalibrating = true → rt.calibrationBuffer = [s0] → trs.length = 9 →
      ((trs.foldl (fun r t => (estimateGestureCore (some t) r now).2) rt).recalibrating = false ∧
        (trs.foldl (fun r t => (estimateGestureCore (some t) r now).2) rt).baseline =
          some (((s0 :: trs.map (fun t => t.signal)).foldl (fun acc v => acc + v) 0) /
            ((RECALIBRATION_FRAMES : ℕ) : ℚ)))) := by
  refine ⟨?_, ?_⟩
  · intro tr rt now b hb hr hstable hdrift
    have H := drift_step_core tr rt now b hb hr hstable hdrift
    refine ⟨fun h15 => ?_, H.2⟩
    rw [H.1 h15]
    exact ⟨rfl, rfl, rfl⟩
  · intro rt s0 trs now hr hbuf hlen
    have H := recal_run 9 rt trs now hr (by omega) (by rw [hbuf]; rfl) hlen
    refine ⟨H.1, ?_⟩
    rw [H.2, hbuf]
    rfl

/-- Claim C5 witness: a concrete 15th drifting frame triggers recalibration
and a concrete recalibration run completes after 9 further samples. -/
theorem c5_witness :
    ((estimateGestureCore (some trTen) rtDrift 0).2.recalibrating = true ∧
      (estimateGestureCore (some trTen) rtDrift 0).2.calibrationBuffer = [trTen.signal] ∧
      (estimateGestureCore (some trTen) rtDrift 0).1 = PoseGesture.IDLE) ∧
    (((List.replicate 9 trHalf).foldl
        (fun r t => (estimateGestureCore (some t) r 0).2) rtRecalOne).recalibrating = false ∧
      ((List.replicate 9 trHalf).foldl
          (fun r t => (estimateGestureCore (some t) r 0).2) rtRecalOne).baseline =
        some (((2 :: (List.replicate 9 trHalf).map (fun t => t.signal)).foldl
            (fun acc v => acc + v) 0) / ((RECALIBRATION_FRAMES : ℕ) : ℚ))) :=
  ⟨(c5_drift_recalibration.1 trTen rtDrift 0 (1/2) rfl rfl rfl
      (by norm_num [trTen, rtDrift, createRuntime, adaptBaseline, abs_of_nonneg])).1
    (by decide),
   c5_drift_recalibration.2 rtRecalOne 2 (List.replicate 9 trHalf) 0 rfl rfl (by decide)⟩

/-- Every usable frame resets the missing-frame counter to zero. -/
theorem core_missing_zero (tr : TierResult) (rt : GestureRuntime) (now : ℚ) :
    (estimateGestureCore (some tr) rt now).2.missingFrames = 0 := by
  unfold estimateGestureCore
  dsimp only
  split_ifs <;> simp

/-- The loop body on a detector-missing or too-short frame. -/
theorem processFrame_missing_branch (rt : GestureRuntime) (now : ℚ)
    (input : Option (List LandmarkPoint))
    (hmiss : input = none ∨ ∃ lms, input = some lms ∧ lms.length < 13) :
    processFrame input rt now =
      (if MAX_MISSING_FRAMES < rt.missingFrames + 1 then
        some (noPersonPublish
          { rt with lastDetectAt := now, missingFrames := rt.missingFrames + 1 })
      else none,
      { rt with lastDetectAt := now, missingFrames := rt.missingFrames + 1 }) := by
  rcases hmiss with h | ⟨lms, h, hlen⟩ <;> subst h
  · unfold processFrame
    dsimp only
    split_ifs <;> rfl
  · unfold processFrame
    dsimp only
    rw [if_pos hlen]
    split_ifs <;> rfl

/-- The loop body on a detected frame whose tier extraction fails. -/
theorem processFrame_tierfail_branch (rt : GestureRuntime) (now : ℚ)
    (lms : List LandmarkPoint) (hl : ¬ lms.length < 13)
    (htier : computeTierSignal lms = none) :
    processFrame (some lms) rt now =
      (if MAX_MISSING_FRAMES < rt.missingFrames + 1 then
        some (noPersonPublish
          { rt with lastDetectAt := now, missingFrames := rt.missingFrames + 1,
                    lastSignal := none })
      else
        some { gesture := PoseGesture.IDLE
               status :=
                 if rt.baseline.isSome && !rt.recalibrating then PoseTrackingStatus.tracking
                 else PoseTrackingStatus.calibrating
               calibrationProgress :=
                 if rt.baseline.isSome && !rt.recalibrating then 1
                 else (rt.calibrationBuffer.length : ℚ) /
                   ((if rt.recalibrating then RECALIBRATION_FRAMES else CALIBRATION_FRAMES : ℕ) : ℚ)
               errorMessage := none
               trackingTier := rt.trackingTier },
      { rt with lastDetectAt := now, missingFrames := rt.missingFrames + 1,
                lastSignal := none }) := by
  unfold processFrame estimateGesture
  dsimp only
  rw [if_neg hl, htier]
  unfold estimateGestureCore
  dsimp only
  split_ifs <;> rfl

/-- One frame with no usable signal: the counter increments, and the frame
publishes no-person exactly when the counter exceeds the threshold. -/
theorem failed_step (input : Option (List LandmarkPoint)) (h : failedInput input = true)
    (rt : GestureRuntime) (now : ℚ) :
    (processFrame input rt now).2.missingFrames = rt.missingFrames + 1 ∧
    (rt.missingFrames + 1 ≤ MAX_MISSING_FRAMES →
      ∀ p, (processFrame input rt now).1 = some p →
        p.status = PoseTrackingStatus.calibrating ∨ p.status = PoseTrackingStatus.tracking) ∧
    (MAX_MISSING_FRAMES < rt.missingFrames + 1 →
      ∃ p, (processFrame input rt now).1 = some p ∧
        p.status = PoseTrackingStatus.noPerson ∧ p.gesture = PoseGesture.IDLE) := by
  by_cases hmiss : input = none ∨ ∃ lms, input = some lms ∧ lms.length < 13
  · rw [processFrame_missing_branch rt now input hmiss]
    by_cases h20 : MAX_MISSING_FRAMES < rt.missingFrames + 1
    · rw [if_pos h20]
      refine ⟨rfl, fun hle => absurd h20 (by omega), fun _ => ⟨_, rfl, rfl, rfl⟩⟩
    · rw [if_neg h20]
      refine ⟨rfl, fun _ p hp => ?_, fun h20t => absurd h20t h20⟩
      exact Option.noConfusion hp
  · obtain ⟨lms, hin⟩ : ∃ lms, input = some lms := by
      cases input with
      | none => exact absurd (Or.inl rfl) hmiss
      | some lms => exact ⟨lms, rfl⟩
    subst hin
    have hl : ¬ lms.length < 13 := fun hlen => hmiss (Or.inr ⟨lms, rfl, hlen⟩)
    have htier : computeTierSignal lms = none := by
      unfold failedInput at h
      simp [hl] at h
      exact h
    rw [processFrame_tierfail_branch rt now lms hl htier]
    by_cases h20 : MAX_MISSING_FRAMES < rt.missingFrames + 1
    · rw [if_pos h20]
      refine ⟨rfl, fun hle => absurd h20 (by omega), fun _ => ⟨_, rfl, rfl, rfl⟩⟩
    · rw [if_neg h20]
      refine ⟨rfl, fun _ p hp => ?_, fun h20t => absurd h20t h20⟩
      injection hp with hp
      subst hp
      dsimp only
      by_cases hcal : (rt.baseline.isSome && !rt.recalibrating) = true
      · right
        rw [if_pos hcal]
      · left
        rw [if_neg hcal]

/-- The missing-frame counter counts consecutive failed frames. -/
theorem run_missing (ins : ℕ → Option (List LandmarkPoint))
    (h : ∀ i, failedInput (ins i) = true) (rt : GestureRuntime) :
    ∀ k, (runProcess ins rt k).missingFrames = rt.missingFrames + k := by
  intro k
  induction k with
  | zero => rfl
  | succ k ih =>
      have hstep := (failed_step (ins k) (h k) (runProcess ins rt k) 0).1
      have hs : runProcess ins rt (k + 1) =
          (processFrame (ins k) (runProcess ins rt k) 0).2 := rfl
      rw [hs, hstep, ih]
      omega

/-- Claim C7: from a zero missing-frame counter, 20 consecutive failed
extractions never publish `no-person`, the 21st does (with gesture IDLE),
and any single successful extraction resets the counter to zero. -/
theorem c7_missing_frames :
    (∀ (ins : ℕ → Option (List LandmarkPoint)) (rt : GestureRuntime),
      (∀ i, failedInput (ins i) = true) → rt.missingFrames = 0 →
      (∀ k, k < MAX_MISSING_FRAMES → ∀ p, pubProcess ins rt k = some p →
        p.status ≠ PoseTrackingStatus.noPerson) ∧
      (∃ p, pubProcess ins rt MAX_MISSING_FRAMES = some p ∧
        p.status = PoseTrackingStatus.noPerson ∧ p.gesture = PoseGesture.IDLE)) ∧
    (∀ (lms : List LandmarkPoint) (rt : GestureRuntime) (now : ℚ),
      ¬ lms.length < 13 → (computeTierSignal lms).isSome = true →
      (processFrame (some lms) rt now).2.missingFrames = 0) := by
  constructor
  · intro ins rt hins h0
    constructor
    · intro k hk p hp
      have hm : (runProcess ins rt k).missingFrames = k := by
        rw [run_missing ins hins rt k, h0, Nat.zero_add]
      have hstep := (failed_step (ins k) (hins k) (runProcess ins rt k) 0).2.1
        (by rw [hm]; omega) p hp
      rcases hstep with hs | hs <;> simp [hs]
    · have hm : (runProcess ins rt MAX_MISSING_FRAMES).missingFrames = MAX_MISSING_FRAMES := by
        rw [run_missing ins hins rt MAX_MISSING_FRAMES, h0, Nat.zero_add]
      exact (failed_step (ins MAX_MISSING_FRAMES) (hins MAX_MISSING_FRAMES)
        (runProcess ins rt MAX_MISSING_FRAMES) 0).2.2 (by rw [hm]; omega)
  · intro lms rt now hl hsome
    obtain ⟨tr, htr⟩ := Option.isSome_iff_exists.mp hsome
    unfold processFrame estimateGesture
    dsimp only
    rw [if_neg hl, htr]
    have hz := core_missing_zero tr { rt with lastDetectAt := now } now
    split_ifs <;> exact hz

/-- Claim C7 witness: all-failed frames from a fresh runtime, and a
successful extraction resetting the counter. -/
theorem c7_witness :
    (∀ p, pubProcess (fun _ => none) createRuntime 3 = some p →
      p.status ≠ PoseTrackingStatus.noPerson) ∧
    (∃ p, pubProcess (fun _ => none) createRuntime MAX_MISSING_FRAMES = some p ∧
      p.status = PoseTrackingStatus.noPerson ∧ p.gesture = PoseGesture.IDLE) ∧
    (processFrame (some (calibLandmarks 1)) createRuntime 5).2.missingFrames = 0 :=
  ⟨(c7_missing_frames.1 (fun _ => none) createRuntime (fun _ => rfl) rfl).1 3 (by decide),
   (c7_missing_frames.1 (fun _ => none) createRuntime (fun _ => rfl) rfl).2,
   c7_missing_frames.2 (calibLandmarks 1) createRuntime 5 (by norm_num [calibLandmarks])
     (by rw [computeTier_calib]; rfl)⟩


/-! ### Concrete state evaluations (helper lemmas for the scenario claims)

Each lemma records the exact runtime after a prefix of a frame schedule;
`norm_num` evaluates one `estimateGestureCore` step at a time (`Rat`
arithmetic does not reduce in the kernel, so `decide` is unavailable). -/

theorem c5s15 : c5state 15 =
    { baseline := some (1/2 : ℚ), calibrationBuffer := [],
      stableGesture := PoseGesture.IDLE, pendingGesture := none,
      pendingSince := (0/1 : ℚ), missingFrames := 0, lastDetectAt := (0/1 : ℚ),
      lastSignal := some (1/2 : ℚ), driftFrames := 0, idleFrames := 0,
      recalibrating := false, trackingTier := 1 } := by
  norm_num +decide [c5state, runTiers, c5frames, tierConst, estimateGestureCore, createRuntime,
    riseVelocityOf, adaptBaseline, rawCandidate, debounceStep, abs_of_nonneg, abs_of_nonpos,
    max_def, min_def]

theorem c6bs15 : c6badState 15 =
    { baseline := some (1/2 : ℚ), calibrationBuffer := [],
      stableGesture := PoseGesture.IDLE, pendingGesture := none,
      pendingSince := (0/1 : ℚ), missingFrames := 0, lastDetectAt := (0/1 : ℚ),
      lastSignal := some (1/2 : ℚ), driftFrames := 0, idleFrames := 0,
      recalibrating := false, trackingTier := 1 } := by
  norm_num +decide [c6badState, runTiers, c6badFrames, tierConst, estimateGestureCore,
    createRuntime, riseVelocityOf, adaptBaseline, rawCandidate, debounceStep, abs_of_nonneg,
    abs_of_nonpos, max_def, min_def]

theorem c6gs15 : c6goodState 15 =
    { baseline := some (1/2 : ℚ), calibrationBuffer := [],
      stableGesture := PoseGesture.IDLE, pendingGesture := none,
      pendingSince := (0/1 : ℚ), missingFrames := 0, lastDetectAt := (0/1 : ℚ),
      lastSignal := some (1/2 : ℚ), driftFrames := 0, idleFrames := 0,
      recalibrating := false, trackingTier := 1 } := by
  norm_num +decide [c6goodState, runTiers, c6frames, tierConst, estimateGestureCore,
    createRuntime, riseVelocityOf, adaptBaseline, rawCandidate, debounceStep, abs_of_nonneg,
    abs_of_nonpos, max_def, min_def]

theorem c5s16 : c5state 16 =
    { baseline := some (77/40 : ℚ), calibrationBuffer := [],
      stableGesture := PoseGesture.IDLE, pendingGesture := some PoseGesture.DUCK,
      pendingSince := (0/1 : ℚ), missingFrames := 0, lastDetectAt := (0/1 : ℚ),
      lastSignal := some (10/1 : ℚ), driftFrames := 1, idleFrames := 1,
      recalibrating := false, trackingTier := 1 } := by
  have h : c5state 16 = (estimateGestureCore (c5frames 15).1 (c5state 15) (c5frames 15).2).2 := rfl
  rw [h, c5s15]
  norm_num +decide [estimateGestureCore, c5frames, tierConst, riseVelocityOf, adaptBaseline,
    rawCandidate, debounceStep, abs_of_nonneg, abs_of_nonpos, max_def, min_def]

theorem c5s17 : c5state 17 =
    { baseline := some (2509/800 : ℚ), calibrationBuffer := [],
      stableGesture := PoseGesture.IDLE, pendingGesture := some PoseGesture.DUCK,
      pendingSince := (0/1 : ℚ), missingFrames := 0, lastDetectAt := (0/1 : ℚ),
      lastSignal := some (10/1 : ℚ), driftFrames := 2, idleFrames := 2,
      recalibrating := false, trackingTier := 1 } := by
  have h : c5state 17 = (estimateGestureCore (c5frames 16).1 (c5state 16) (c5frames 16).2).2 := rfl
  rw [h, c5s16]
  norm_num +decide [estimateGestureCore, c5frames, tierConst, riseVelocityOf, adaptBaseline,
    rawCandidate, debounceStep, abs_of_nonneg, abs_of_nonpos, max_def, min_def]

theorem c5s18 : c5state 18 =
    { baseline := some (66653/16000 : ℚ), calibrationBuffer := [],
      stableGesture := PoseGesture.IDLE, pendingGesture := some PoseGesture.DUCK,
      pendingSince := (0/1 : ℚ), missingFrames := 0, lastDetectAt := (0/1 : ℚ),
      lastSignal := some (10/1 : ℚ), driftFrames := 3, idleFrames := 3,
      recalibrating := false, trackingTier := 1 } := by
  have h : c5state 18 = (estimateGestureCore (c5frames 17).1 (c5state 17) (c5frames 17).2).2 := rfl
  rw [h, c5s17]
  norm_num +decide [estimateGestureCore, c5frames, tierConst, riseVelocityOf, adaptBaseline,
    rawCandidate, debounceStep, abs_of_nonneg, abs_of_nonpos, max_def, min_def]

theorem c5s19 : c5state 19 =
    { baseline := some (1613101/320000 : ℚ), calibrationBuffer := [],
      stableGesture := PoseGesture.IDLE, pendingGesture := some PoseGesture.DUCK,
      pendingSince := (0/1 : ℚ), missingFrames := 0, lastDetectAt := (0/1 : ℚ),
      lastSignal := some (10/1 : ℚ), driftFrames := 4, idleFrames := 4,
      recalibrating := false, trackingTier := 1 } := by
  have h : c5state 19 = (estimateGestureCore (c5frames 18).1 (c5state 18) (c5frames 18).2).2 := rfl
  rw [h, c5s18]
  norm_num +decide [estimateGestureCore, c5frames, tierConst, riseVelocityOf, adaptBaseline,
    rawCandidate, debounceStep, abs_of_nonneg, abs_of_nonpos, max_def, min_def]

theorem c5s20 : c5state 20 =
    { baseline := some (37022717/6400000 : ℚ), calibrationBuffer := [],
      stableGesture := PoseGesture.IDLE, pendingGesture := some PoseGesture.DUCK,
      pendingSince := (0/1 : ℚ), missingFrames := 0, lastDetectAt := (0/1 : ℚ),
      lastSignal := some (10/1 : ℚ), driftFrames := 5, idleFrames := 5,
      recalibrating := false, trackingTier := 1 } := by
  have h : c5state 20 = (estimateGestureCore (c5frames 19).1 (c5state 19) (c5frames 19).2).2 := rfl
  rw [h, c5s19]
  norm_num +decide [estimateGestureCore, c5frames, tierConst, riseVelocityOf, adaptBaseline,
    rawCandidate, debounceStep, abs_of_nonneg, abs_of_nonpos, max_def, min_def]

theorem c5s21 : c5state 21 =
    { baseline := some (821386189/128000000 : ℚ), calibrationBuffer := [],
      stableGesture := PoseGesture.IDLE, pendingGesture := some PoseGesture.DUCK,
      pendingSince := (0/1 : ℚ), missingFrames := 0, lastDetectAt := (0/1 : ℚ),
      lastSignal := some (10/1 : ℚ), driftFrames := 6, idleFrames := 6,
      recalibrating := false, trackingTier := 1 } := by
  have h : c5state 21 = (estimateGestureCore (c5frames 20).1 (c5state 20) (c5frames 20).2).2 := rfl
  rw [h, c5s20]
  norm_num +decide [estimateGestureCore, c5frames, tierConst, riseVelocityOf, adaptBaseline,
    rawCandidate, debounceStep, abs_of_nonneg, abs_of_nonpos, max_def, min_def]

theorem c5s22 : c5state 22 =
    { baseline := some (17803565213/2560000000 : ℚ), calibrationBuffer := [],
      stableGesture := PoseGesture.IDLE, pendingGesture := some PoseGesture.DUCK,
      pendingSince := (0/1 : ℚ), missingFrames := 0, lastDetectAt := (0/1 : ℚ),
      lastSignal := some (10/1 : ℚ), driftFrames := 7, idleFrames := 7,
      recalibrating := false, trackingTier := 1 } := by
  have h : c5state 22 = (estimateGestureCore (c5frames 21).1 (c5state 21) (c5frames 21).2).2 := rfl
  rw [h, c5s21]
  norm_num +decide [estimateGestureCore, c5frames, tierConst, riseVelocityOf, adaptBaseline,
    rawCandidate, debounceStep, abs_of_nonneg, abs_of_nonpos, max_def, min_def]

theorem c5s23 : c5state 23 =
    { baseline := some (379460608621/51200000000 : ℚ), calibrationBuffer := [],
      stableGesture := PoseGesture.IDLE, pendingGesture := some PoseGesture.DUCK,
      pendingSince := (0/1 : ℚ), missingFrames := 0, lastDetectAt := (0/1 : ℚ),
      lastSignal := some (10/1 : ℚ), driftFrames := 8, idleFrames := 8,
      recalibrating := false, trackingTier := 1 } := by
  have h : c5state 23 = (estimateGestureCore (c5frames 22).1 (c5state 22) (c5frames 22).2).2 := rfl
  rw [h, c5s22]
  norm_num +decide [estimateGestureCore, c5frames, tierConst, riseVelocityOf, adaptBaseline,
    rawCandidate, debounceStep, abs_of_nonneg, abs_of_nonpos, max_def, min_def]

theorem c5s24 : c5state 24 =
    { baseline := some (7986830346557/1024000000000 : ℚ), calibrationBuffer := [],
      stableGesture := PoseGesture.IDLE, pendingGesture := some PoseGesture.DUCK,
      pendingSince := (0/1 : ℚ), missingFrames := 0, lastDetectAt := (0/1 : ℚ),
      lastSignal := some (10/1 : ℚ), driftFrames := 9, idleFrames := 9,
      recalibrating := false, trackingTier := 1 } := by
  have h : c5state 24 = (estimateGestureCore (c5frames 23).1 (c5state 23) (c5frames 23).2).2 := rfl
  rw [h, c5s23]
  norm_num +decide [estimateGestureCore, c5frames, tierConst, riseVelocityOf, adaptBaseline,
    rawCandidate, debounceStep, abs_of_nonneg, abs_of_nonpos, max_def, min_def]

theorem c5s25 : c5state 25 =
    { baseline := some (166496115891469/20480000000000 : ℚ), calibrationBuffer := [],
      stableGesture := PoseGesture.IDLE, pendingGesture := some PoseGesture.DUCK,
      pendingSince := (0/1 : ℚ), missingFrames := 0, lastDetectAt := (0/1 : ℚ),
      lastSignal := some (10/1 : ℚ), driftFrames := 10, idleFrames := 10,
      recalibrating := false, trackingTier := 1 } := by
  have h : c5state 25 = (estimateGestureCore (c5frames 24).1 (c5state 24) (c5frames 24).2).2 := rfl
  rw [h, c5s24]
  norm_num +decide [estimateGestureCore, c5frames, tierConst, riseVelocityOf, adaptBaseline,
    rawCandidate, debounceStep, abs_of_nonneg, abs_of_nonpos, max_def, min_def]

theorem c5s26 : c5state 26 =
    { baseline := some (3444833970154973/409600000000000 : ℚ), calibrationBuffer := [],
      stableGesture := PoseGesture.IDLE, pendingGesture := some PoseGesture.DUCK,
      pendingSince := (0/1 : ℚ), missingFrames := 0, lastDetectAt := (0/1 : ℚ),
      lastSignal := some (10/1 : ℚ), driftFrames := 11, idleFrames := 11,
      recalibrating := false, trackingTier := 1 } := by
  have h : c5state 26 = (estimateGestureCore (c5frames 25).1 (c5state 25) (c5frames 25).2).2 := rfl
  rw [h, c5s25]
  norm_num +decide [estimateGestureCore, c5frames, tierConst, riseVelocityOf, adaptBaseline,
    rawCandidate, debounceStep, abs_of_nonneg, abs_of_nonpos, max_def, min_def]

theorem c5s27 : c5state 27 =
    { baseline := some (70850177492634541/8192000000000000 : ℚ), calibrationBuffer := [],
      stableGesture := PoseGesture.IDLE, pendingGesture := some PoseGesture.DUCK,
      pendingSince := (0/1 : ℚ), missingFrames := 0, lastDetectAt := (0/1 : ℚ),
      lastSignal := some (10/1 : ℚ), driftFrames := 12, idleFrames := 12,
      recalibrating := false, trackingTier := 1 } := by
  have h : c5state 27 = (estimateGestureCore (c5frames 26).1 (c5state 26) (c5frames 26).2).2 := rfl
  rw [h, c5s26]
  norm_num +decide [estimateGestureCore, c5frames, tierConst, riseVelocityOf, adaptBaseline,
    rawCandidate, debounceStep, abs_of_nonneg, abs_of_nonpos, max_def, min_def]

theorem c5s28 : c5state 28 =
    { baseline := some (1450213017374787197/163840000000000000 : ℚ), calibrationBuffer := [],
      stableGesture := PoseGesture.IDLE, pendingGesture := some PoseGesture.DUCK,
      pendingSince := (0/1 : ℚ), missingFrames := 0, lastDetectAt := (0/1 : ℚ),
      lastSignal := some (10/1 : ℚ), driftFrames := 13, idleFrames := 13,
      recalibrating := false, trackingTier := 1 } := by
  have h : c5state 28 = (estimateGestureCore (c5frames 27).1 (c5state 27) (c5frames 27).2).2 := rfl
  rw [h, c5s27]
  norm_num +decide [estimateGestureCore, c5frames, tierConst, riseVelocityOf, adaptBaseline,
    rawCandidate, debounceStep, abs_of_nonneg, abs_of_nonpos, max_def, min_def]

theorem c5s29 : c5state 29 =
    { baseline := some (29568821295371382349/3276800000000000000 : ℚ), calibrationBuffer := [],
      stableGesture := PoseGesture.IDLE, pendingGesture := some PoseGesture.DUCK,
      pendingSince := (0/1 : ℚ), missingFrames := 0, lastDetectAt := (0/1 : ℚ),
      lastSignal := some (10/1 : ℚ), driftFrames := 14, idleFrames := 14,
      recalibrating := false, trackingTier := 1 } := by
  have h : c5state 29 = (estimateGestureCore (c5frames 28).1 (c5state 28) (c5frames 28).2).2 := rfl
  rw [h, c5s28]
  norm_num +decide [estimateGestureCore, c5frames, tierConst, riseVelocityOf, adaptBaseline,
    rawCandidate, debounceStep, abs_of_nonneg, abs_of_nonpos, max_def, min_def]

theorem c5s30 : c5state 30 =
    { baseline := some (600973962021313499933/65536000000000000000 : ℚ), calibrationBuffer := [(10/1 : ℚ)],
      stableGesture := PoseGesture.IDLE, pendingGesture := some PoseGesture.DUCK,
      pendingSince := (0/1 : ℚ), missingFrames := 0, lastDetectAt := (0/1 : ℚ),
      lastSignal := some (10/1 : ℚ), driftFrames := 0, idleFrames := 15,
      recalibrating := true, trackingTier := 1 } := by
  have h : c5state 30 = (estimateGestureCore (c5frames 29).1 (c5state 29) (c5frames 29).2).2 := rfl
  rw [h, c5s29]
  norm_num +decide [estimateGestureCore, c5frames, tierConst, riseVelocityOf, adaptBaseline,
    rawCandidate, debounceStep, abs_of_nonneg, abs_of_nonpos, max_def, min_def]

theorem c5s31 : c5state 31 =
    { baseline := some (600973962021313499933/65536000000000000000 : ℚ), calibrationBuffer := [(10/1 : ℚ), (10/1 : ℚ)],
      stableGesture := PoseGesture.IDLE, pendingGesture := some PoseGesture.DUCK,
      pendingSince := (0/1 : ℚ), missingFrames := 0, lastDetectAt := (0/1 : ℚ),
      lastSignal := some (10/1 : ℚ), driftFrames := 0, idleFrames := 15,
      recalibrating := true, trackingTier := 1 } := by
  have h : c5state 31 = (estimateGestureCore (c5frames 30).1 (c5state 30) (c5frames 30).2).2 := rfl
  rw [h, c5s30]
  norm_num +decide [estimateGestureCore, c5frames, tierConst, riseVelocityOf, adaptBaseline,
    rawCandidate, debounceStep, abs_of_nonneg, abs_of_nonpos, max_def, min_def]

theorem c5s32 : c5state 32 =
    { baseline := some (600973962021313499933/65536000000000000000 : ℚ), calibrationBuffer := [(10/1 : ℚ), (10/1 : ℚ), (10/1 : ℚ)],
      stableGesture := PoseGesture.IDLE, pendingGesture := some PoseGesture.DUCK,
      pendingSince := (0/1 : ℚ), missingFrames := 0, lastDetectAt := (0/1 : ℚ),
      lastSignal := some (10/1 : ℚ), driftFrames := 0, idleFrames := 15,
      recalibrating := true, trackingTier := 1 } := by
  have h : c5state 32 = (estimateGestureCore (c5frames 31).1 (c5state 31) (c5frames 31).2).2 := rfl
  rw [h, c5s31]
  norm_num +decide [estimateGestureCore, c5frames, tierConst, riseVelocityOf, adaptBaseline,
    rawCandidate, debounceStep, abs_of_nonneg, abs_of_nonpos, max_def, min_def]

theorem c5s33 : c5state 33 =
    { baseline := some (600973962021313499933/65536000000000000000 : ℚ), calibrationBuffer := [(10/1 : ℚ), (10/1 : ℚ), (10/1 : ℚ), (10/1 : ℚ)],
      stableGesture := PoseGesture.IDLE, pendingGesture := some PoseGesture.DUCK,
      pendingSince := (0/1 : ℚ), missingFrames := 0, lastDetectAt := (0/1 : ℚ),
      lastSignal := some (10/1 : ℚ), driftFrames := 0, idleFrames := 15,
      recalibrating := true, trackingTier := 1 } := by
  have h : c5state 33 = (estimateGestureCore (c5frames 32).1 (c5state 32) (c5frames 32).2).2 := rfl
  rw [h, c5s32]
  norm_num +decide [estimateGestureCore, c5frames, tierConst, riseVelocityOf, adaptBaseline,
    rawCandidate, debounceStep, abs_of_nonneg, abs_of_nonpos, max_def, min_def]

theorem c5s34 : c5state 34 =
    { baseline := some (600973962021313499933/65536000000000000000 : ℚ), calibrationBuffer := [(10/1 : ℚ), (10/1 : ℚ), (10/1 : ℚ), (10/1 : ℚ), (10/1 : ℚ)],
      stableGesture := PoseGesture.IDLE, pendingGesture := some PoseGesture.DUCK,
      pendingSince := (0/1 : ℚ), missingFrames := 0, lastDetectAt := (0/1 : ℚ),
      lastSignal := some (10/1 : ℚ), driftFrames := 0, idleFrames := 15,
      recalibrating := true, trackingTier := 1 } := by
  have h : c5state 34 = (estimateGestureCore (c5frames 33).1 (c5state 33) (c5frames 33).2).2 := rfl
  rw [h, c5s33]
  norm_num +decide [estimateGestureCore, c5frames, tierConst, riseVelocityOf, adaptBaseline,
    rawCandidate, debounceStep, abs_of_nonneg, abs_of_nonpos, max_def, min_def]

theorem c5s35 : c5state 35 =
    { baseline := some (600973962021313499933/65536000000000000000 : ℚ), calibrationBuffer := [(10/1 : ℚ), (10/1 : ℚ), (10/1 : ℚ), (10/1 : ℚ), (10/1 : ℚ), (10/1 : ℚ)],
      stableGesture := PoseGesture.IDLE, pendingGesture := some PoseGesture.DUCK,
      pendingSince := (0/1 : ℚ), missingFrames := 0, lastDetectAt := (0/1 : ℚ),
      lastSignal := some (10/1 : ℚ), driftFrames := 0, idleFrames := 15,
      recalibrating := true, trackingTier := 1 } := by
  have h : c5state 35 = (estimateGestureCore (c5frames 34).1 (c5state 34) (c5frames 34).2).2 := rfl
  rw [h, c5s34]
  norm_num +decide [estimateGestureCore, c5frames, tierConst, riseVelocityOf, adaptBaseline,
    rawCandidate, debounceStep, abs_of_nonneg, abs_of_nonpos, max_def, min_def]

theorem c5s36 : c5state 36 =
    { baseline := some (600973962021313499933/65536000000000000000 : ℚ), calibrationBuffer := [(10/1 : ℚ), (10/1 : ℚ), (10/1 : ℚ), (10/1 : ℚ), (10/1 : ℚ), (10/1 : ℚ), (10/1 : ℚ)],
      stableGesture := PoseGesture.IDLE, pendingGesture := some PoseGesture.DUCK,
      pendingSince := (0/1 : ℚ), missingFrames := 0, lastDetectAt := (0/1 : ℚ),
      lastSignal := some (10/1 : ℚ), driftFrames := 0, idleFrames := 15,
      recalibrating := true, trackingTier := 1 } := by
  have h : c5state 36 = (estimateGestureCore (c5frames 35).1 (c5state 35) (c5frames 35).2).2 := rfl
  rw [h, c5s35]
  norm_num +decide [estimateGestureCore, c5frames, tierConst, riseVelocityOf, adaptBaseline,
    rawCandidate, debounceStep, abs_of_nonneg, abs_of_nonpos, max_def, min_def]

theorem c5s37 : c5state 37 =
    { baseline := some (600973962021313499933/65536000000000000000 : ℚ), calibrationBuffer := [(10/1 : ℚ), (10/1 : ℚ), (10/1 : ℚ), (10/1 : ℚ), (10/1 : ℚ), (10/1 : ℚ), (10/1 : ℚ), (10/1 : ℚ)],
      stableGesture := PoseGesture.IDLE, pendingGesture := some PoseGesture.DUCK,
      pendingSince := (0/1 : ℚ), missingFrames := 0, lastDetectAt := (0/1 : ℚ),
      lastSignal := some (10/1 : ℚ), driftFrames := 0, idleFrames := 15,
      recalibrating := true, trackingTier := 1 } := by
  have h : c5state 37 = (estimateGestureCore (c5frames 36).1 (c5state 36) (c5frames 36).2).2 := rfl
  rw [h, c5s36]
  norm_num +decide [estimateGestureCore, c5frames, tierConst, riseVelocityOf, adaptBaseline,
    rawCandidate, debounceStep, abs_of_nonneg, abs_of_nonpos, max_def, min_def]

theorem c5s38 : c5state 38 =
    { baseline := some (600973962021313499933/65536000000000000000 : ℚ), calibrationBuffer := [(10/1 : ℚ), (10/1 : ℚ), (10/1 : ℚ), (10/1 : ℚ), (10/1 : ℚ), (10/1 : ℚ), (10/1 : ℚ), (10/1 : ℚ), (10/1 : ℚ)],
      stableGesture := PoseGesture.IDLE, pendingGesture := some PoseGesture.DUCK,
      pendingSince := (0/1 : ℚ), missingFrames := 0, lastDetectAt := (0/1 : ℚ),
      lastSignal := some (10/1 : ℚ), driftFrames := 0, idleFrames := 15,
      recalibrating := true, trackingTier := 1 } := by
  have h : c5state 38 = (estimateGestureCore (c5frames 37).1 (c5state 37) (c5frames 37).2).2 := rfl
  rw [h, c5s37]
  norm_num +decide [estimateGestureCore, c5frames, tierConst, riseVelocityOf, adaptBaseline,
    rawCandidate, debounceStep, abs_of_nonneg, abs_of_nonpos, max_def, min_def]

theorem c5s39 : c5state 39 =
    { baseline := some (10/1 : ℚ), calibrationBuffer := [],
      stableGesture := PoseGesture.IDLE, pendingGesture := some PoseGesture.DUCK,
      pendingSince := (0/1 : ℚ), missingFrames := 0, lastDetectAt := (0/1 : ℚ),
      lastSignal := some (10/1 : ℚ), driftFrames := 0, idleFrames := 0,
      recalibrating := false, trackingTier := 1 } := by
  have h : c5state 39 = (estimateGestureCore (c5frames 38).1 (c5state 38) (c5frames 38).2).2 := rfl
  rw [h, c5s38]
  norm_num +decide [estimateGestureCore, c5frames, tierConst, riseVelocityOf, adaptBaseline,
    rawCandidate, debounceStep, abs_of_nonneg, abs_of_nonpos, max_def, min_def]

theorem c6bs16 : c6badState 16 =
    { baseline := some (241/500 : ℚ), calibrationBuffer := [],
      stableGesture := PoseGesture.IDLE, pendingGesture := some PoseGesture.JUMP,
      pendingSince := (1000/1 : ℚ), missingFrames := 0, lastDetectAt := (0/1 : ℚ),
      lastSignal := some (19/50 : ℚ), driftFrames := 0, idleFrames := 1,
      recalibrating := false, trackingTier := 1 } := by
  have h : c6badState 16 = (estimateGestureCore (c6badFrames 15).1 (c6badState 15) (c6badFrames 15).2).2 := rfl
  rw [h, c6bs15]
  norm_num +decide [estimateGestureCore, c6badFrames, tierConst, riseVelocityOf, adaptBaseline,
    rawCandidate, debounceStep, abs_of_nonneg, abs_of_nonpos, max_def, min_def]

theorem c6bs17 : c6badState 17 =
    { baseline := some (4667/10000 : ℚ), calibrationBuffer := [],
      stableGesture := PoseGesture.IDLE, pendingGesture := none,
      pendingSince := (1000/1 : ℚ), missingFrames := 0, lastDetectAt := (0/1 : ℚ),
      lastSignal := some (19/50 : ℚ), driftFrames := 0, idleFrames := 2,
      recalibrating := false, trackingTier := 1 } := by
  have h : c6badState 17 = (estimateGestureCore (c6badFrames 16).1 (c6badState 16) (c6badFrames 16).2).2 := rfl
  rw [h, c6bs16]
  norm_num +decide [estimateGestureCore, c6badFrames, tierConst, riseVelocityOf, adaptBaseline,
    rawCandidate, debounceStep, abs_of_nonneg, abs_of_nonpos, max_def, min_def]

theorem c6bs18 : c6badState 18 =
    { baseline := some (90739/200000 : ℚ), calibrationBuffer := [],
      stableGesture := PoseGesture.IDLE, pendingGesture := none,
      pendingSince := (1000/1 : ℚ), missingFrames := 0, lastDetectAt := (0/1 : ℚ),
      lastSignal := some (19/50 : ℚ), driftFrames := 0, idleFrames := 3,
      recalibrating := false, trackingTier := 1 } := by
  have h : c6badState 18 = (estimateGestureCore (c6badFrames 17).1 (c6badState 17) (c6badFrames 17).2).2 := rfl
  rw [h, c6bs17]
  norm_num +decide [estimateGestureCore, c6badFrames, tierConst, riseVelocityOf, adaptBaseline,
    rawCandidate, debounceStep, abs_of_nonneg, abs_of_nonpos, max_def, min_def]

theorem c6bs19 : c6badState 19 =
    { baseline := some (1770563/4000000 : ℚ), calibrationBuffer := [],
      stableGesture := PoseGesture.IDLE, pendingGesture := none,
      pendingSince := (1000/1 : ℚ), missingFrames := 0, lastDetectAt := (0/1 : ℚ),
      lastSignal := some (19/50 : ℚ), driftFrames := 0, idleFrames := 4,
      recalibrating := false, trackingTier := 1 } := by
  have h : c6badState 19 = (estimateGestureCore (c6badFrames 18).1 (c6badState 18) (c6badFrames 18).2).2 := rfl
  rw [h, c6bs18]
  norm_num +decide [estimateGestureCore, c6badFrames, tierConst, riseVelocityOf, adaptBaseline,
    rawCandidate, debounceStep, abs_of_nonneg, abs_of_nonpos, max_def, min_def]

theorem c6bs20 : c6badState 20 =
    { baseline := some (34659571/80000000 : ℚ), calibrationBuffer := [],
      stableGesture := PoseGesture.IDLE, pendingGesture := none,
      pendingSince := (1000/1 : ℚ), missingFrames := 0, lastDetectAt := (0/1 : ℚ),
      lastSignal := some (19/50 : ℚ), driftFrames := 0, idleFrames := 5,
      recalibrating := false, trackingTier := 1 } := by
  have h : c6badState 20 = (estimateGestureCore (c6badFrames 19).1 (c6badState 19) (c6badFrames 19).2).2 := rfl
  rw [h, c6bs19]
  norm_num +decide [estimateGestureCore, c6badFrames, tierConst, riseVelocityOf, adaptBaseline,
    rawCandidate, debounceStep, abs_of_nonneg, abs_of_nonpos, max_def, min_def]

theorem c6gs16 : c6goodState 16 =
    { baseline := some (47/100 : ℚ), calibrationBuffer := [],
      stableGesture := PoseGesture.IDLE, pendingGesture := some PoseGesture.JUMP,
      pendingSince := (1000/1 : ℚ), missingFrames := 0, lastDetectAt := (0/1 : ℚ),
      lastSignal := some (3/10 : ℚ), driftFrames := 0, idleFrames := 1,
      recalibrating := false, trackingTier := 1 } := by
  have h : c6goodState 16 = (estimateGestureCore (c6frames 15).1 (c6goodState 15) (c6frames 15).2).2 := rfl
  rw [h, c6gs15]
  norm_num +decide [estimateGestureCore, c6frames, tierConst, riseVelocityOf, adaptBaseline,
    rawCandidate, debounceStep, abs_of_nonneg, abs_of_nonpos, max_def, min_def]

theorem c6gs17 : c6goodState 17 =
    { baseline := some (889/2000 : ℚ), calibrationBuffer := [],
      stableGesture := PoseGesture.JUMP, pendingGesture := none,
      pendingSince := (1000/1 : ℚ), missingFrames := 0, lastDetectAt := (0/1 : ℚ),
      lastSignal := some (3/10 : ℚ), driftFrames := 0, idleFrames := 2,
      recalibrating := false, trackingTier := 1 } := by
  have h : c6goodState 17 = (estimateGestureCore (c6frames 16).1 (c6goodState 16) (c6frames 16).2).2 := rfl
  rw [h, c6gs16]
  norm_num +decide [estimateGestureCore, c6frames, tierConst, riseVelocityOf, adaptBaseline,
    rawCandidate, debounceStep, abs_of_nonneg, abs_of_nonpos, max_def, min_def]

theorem c6gs18 : c6goodState 18 =
    { baseline := some (889/2000 : ℚ), calibrationBuffer := [],
      stableGesture := PoseGesture.JUMP, pendingGesture := some PoseGesture.IDLE,
      pendingSince := (1124/1 : ℚ), missingFrames := 0, lastDetectAt := (0/1 : ℚ),
      lastSignal := some (1/2 : ℚ), driftFrames := 0, idleFrames := 0,
      recalibrating := false, trackingTier := 1 } := by
  have h : c6goodState 18 = (estimateGestureCore (c6frames 17).1 (c6goodState 17) (c6frames 17).2).2 := rfl
  rw [h, c6gs17]
  norm_num +decide [estimateGestureCore, c6frames, tierConst, riseVelocityOf, adaptBaseline,
    rawCandidate, debounceStep, abs_of_nonneg, abs_of_nonpos, max_def, min_def]

theorem c6gs19 : c6goodState 19 =
    { baseline := some (889/2000 : ℚ), calibrationBuffer := [],
      stableGesture := PoseGesture.IDLE, pendingGesture := none,
      pendingSince := (1124/1 : ℚ), missingFrames := 0, lastDetectAt := (0/1 : ℚ),
      lastSignal := some (1/2 : ℚ), driftFrames := 0, idleFrames := 0,
      recalibrating := false, trackingTier := 1 } := by
  have h : c6goodState 19 = (estimateGestureCore (c6frames 18).1 (c6goodState 18) (c6frames 18).2).2 := rfl
  rw [h, c6gs18]
  norm_num +decide [estimateGestureCore, c6frames, tierConst, riseVelocityOf, adaptBaseline,
    rawCandidate, debounceStep, abs_of_nonneg, abs_of_nonpos, max_def, min_def]



/-- Claim C5 counterexample: after 15 calibration frames at signal 0.5 and
15 drift frames at signal 10, recalibration is active with the buffer
reseeded to the triggering sample; 9 further samples (frames 30-38), not
10, complete it, setting the baseline to the mean 10. -/
theorem c5_counterexample :
    (c5state 30).recalibrating = true ∧ (c5state 30).calibrationBuffer = [10] ∧
    (c5state 39).recalibrating = false ∧ (c5state 39).baseline = some 10 := by
  refine ⟨?_, ?_, ?_, ?_⟩
  · rw [c5s30]
  · rw [c5s30]
    norm_num
  · rw [c5s39]
  · rw [c5s39]
    norm_num

/-- Claim C6 counterexample: with baseline 0.5 a sustained signal of 0.38
(the scenario of the claim) never publishes JUMP -- idle baseline adaptation
erodes the delta below the threshold, so the gesture stays IDLE on every
frame. -/
theorem c6_counterexample :
    runTiersOut c6badFrames 15 = PoseGesture.IDLE ∧
    runTiersOut c6badFrames 16 = PoseGesture.IDLE ∧
    runTiersOut c6badFrames 17 = PoseGesture.IDLE ∧
    runTiersOut c6badFrames 18 = PoseGesture.IDLE ∧
    runTiersOut c6badFrames 19 = PoseGesture.IDLE ∧
    (c6badState 20).stableGesture = PoseGesture.IDLE := by
  have e : ∀ k, runTiersOut c6badFrames k =
      (estimateGestureCore (c6badFrames k).1 (c6badState k) (c6badFrames k).2).1 :=
    fun _ => rfl
  refine ⟨?_, ?_, ?_, ?_, ?_, ?_⟩
  · rw [e 15, c6bs15]
    norm_num +decide [estimateGestureCore, c6badFrames, tierConst, riseVelocityOf,
      adaptBaseline, rawCandidate, debounceStep, abs_of_nonneg, abs_of_nonpos, max_def, min_def]
  · rw [e 16, c6bs16]
    norm_num +decide [estimateGestureCore, c6badFrames, tierConst, riseVelocityOf,
      adaptBaseline, rawCandidate, debounceStep, abs_of_nonneg, abs_of_nonpos, max_def, min_def]
  · rw [e 17, c6bs17]
    norm_num +decide [estimateGestureCore, c6badFrames, tierConst, riseVelocityOf,
      adaptBaseline, rawCandidate, debounceStep, abs_of_nonneg, abs_of_nonpos, max_def, min_def]
  · rw [e 18, c6bs18]
    norm_num +decide [estimateGestureCore, c6badFrames, tierConst, riseVelocityOf,
      adaptBaseline, rawCandidate, debounceStep, abs_of_nonneg, abs_of_nonpos, max_def, min_def]
  · rw [e 19, c6bs19]
    norm_num +decide [estimateGestureCore, c6badFrames, tierConst, riseVelocityOf,
      adaptBaseline, rawCandidate, debounceStep, abs_of_nonneg, abs_of_nonpos, max_def, min_def]
  · rw [c6bs20]

/-- Claim C6 (amended): a deeper displacement (signal 0.30) sustained across
the 90 ms debounce window commits JUMP, and after the signal returns to 0.50
for a full window the gesture reverts to IDLE. -/
theorem c6_amended :
    runTiersOut c6frames 15 = PoseGesture.IDLE ∧
    runTiersOut c6frames 16 = PoseGesture.JUMP ∧
    (c6goodState 17).stableGesture = PoseGesture.JUMP ∧
    runTiersOut c6frames 17 = PoseGesture.JUMP ∧
    runTiersOut c6frames 18 = PoseGesture.IDLE ∧
    (c6goodState 19).stableGesture = PoseGesture.IDLE := by
  have e : ∀ k, runTiersOut c6frames k =
      (estimateGestureCore (c6frames k).1 (c6goodState k) (c6frames k).2).1 :=
    fun _ => rfl
  refine ⟨?_, ?_, ?_, ?_, ?_, ?_⟩
  · rw [e 15, c6gs15]
    norm_num +decide [estimateGestureCore, c6frames, tierConst, riseVelocityOf,
      adaptBaseline, rawCandidate, debounceStep, abs_of_nonneg, abs_of_nonpos, max_def, min_def]
  · rw [e 16, c6gs16]
    norm_num +decide [estimateGestureCore, c6frames, tierConst, riseVelocityOf,
      adaptBaseline, rawCandidate, debounceStep, abs_of_nonneg, abs_of_nonpos, max_def, min_def]
  · rw [c6gs17]
  · rw [e 17, c6gs17]
    norm_num +decide [estimateGestureCore, c6frames, tierConst, riseVelocityOf,
      adaptBaseline, rawCandidate, debounceStep, abs_of_nonneg, abs_of_nonpos, max_def, min_def]
  · rw [e 18, c6gs18]
    norm_num +decide [estimateGestureCore, c6frames, tierConst, riseVelocityOf,
      adaptBaseline, rawCandidate, debounceStep, abs_of_nonneg, abs_of_nonpos, max_def, min_def]
  · rw [c6gs19]

end MotionDino
